import Mathlib

/-!
Verification development for the device fleet version manager
(`src/version_manager`).  The Python sources are shallowly embedded:

* `Json`, `Json.dumps`, `Json.loads` model the JSON payload handling used
  by the Store (`payload_json` columns are serialised with
  `json.dumps(..., ensure_ascii=False)` and lazily re-parsed with
  `json.loads`).
* `fnmatchcase` models Python's `fnmatch.fnmatchcase` shell-glob matcher
  used by `baseline_allows` and the controlled-files differ.
* `PollResult`, `pollDvp1Http`, `pollDevice` embed `poller.py`; the single
  outbound HTTP exchange is abstracted as an `HttpOutcome` input and the
  measured wall-clock duration as an `elapsedMs : Nat` input.
* `Db` and its operations embed the relevant parts of `db.py`
  (`record_snapshot`, `get_latest_snapshot`, `get_latest_success_snapshot`,
  `baseline_allows`, `update_device_state`, `ensure_version_catalog_entry`,
  `get_version_catalog_item`, `create_event`, `list_status`).
* `checkControlledFiles`, `computeStateAndMessage` and `pollAndRecord`
  embed the reconciler in `server.py` (`App._check_controlled_files`,
  `App._compute_state_and_message`, `App.poll_and_record`).

Timestamps are modelled as natural numbers (`now` parameters), the
database auto-increment ids as counters carried in the `Db` state.
-/

/-! ## Character and string helpers (Python `str` semantics) -/

/-- Code-point comparison of characters, as used by Python string ordering. -/
def charLtB (a b : Char) : Bool := a.toNat < b.toNat

/-- Lexicographic code-point comparison of strings (Python `<` on `str`). -/
def strLtB : List Char → List Char → Bool
  | [], [] => false
  | [], _ :: _ => true
  | _ :: _, [] => false
  | a :: as_, b :: bs => if a = b then strLtB as_ bs else charLtB a b

/-- Python `<` on `str`, lifted to Lean `String`. -/
def stringLtB (a b : String) : Bool := strLtB a.data b.data

/-- Whitespace characters stripped by Python `str.strip()`. -/
def isPySpace (c : Char) : Bool :=
  c = ' ' || c = '\t' || c = '\n' || c = '\x0d' || c = '\x0b' || c = '\x0c'

/-- Python `str.strip()` on a character list. -/
def stripChars (s : List Char) : List Char :=
  ((s.dropWhile isPySpace).reverse.dropWhile isPySpace).reverse

/-- Python `str.strip()`. -/
def pyStrip (s : String) : String := String.mk (stripChars s.data)

/-- ASCII lower-casing, as Python `str.lower()` behaves on ASCII input. -/
def lowerAscii (c : Char) : Char :=
  if 'A' ≤ c && c ≤ 'Z' then Char.ofNat (c.toNat + 32) else c

/-- Python `str.lower()` (ASCII fragment). -/
def pyLower (s : String) : String := String.mk (s.data.map lowerAscii)

/-- Decimal digit character for a digit value. -/
def digitChar (d : Nat) : Char := Char.ofNat (48 + d)

/-- Little-endian decimal digits of a natural number (fuel-driven so that
the kernel can evaluate it). -/
def digitsLE : Nat → Nat → List Nat
  | 0, _ => []
  | fuel + 1, n => if n < 10 then [n] else n % 10 :: digitsLE fuel (n / 10)

/-- Decimal rendering of a natural number, most significant digit first. -/
def natToChars (n : Nat) : List Char :=
  ((digitsLE (n + 1) n).reverse).map digitChar

/-- Decimal rendering of a natural number as a `String`. -/
def natToString (n : Nat) : String := String.mk (natToChars n)

/-- Decimal rendering of an integer (Python `str` of an `int`). -/
def intToChars (n : Int) : List Char :=
  if n < 0 then '-' :: natToChars n.natAbs else natToChars n.toNat

/-! ## JSON values and Python `json.dumps` -/

/-- JSON values, as produced by `json.loads` of a device response body and
stored back through `json.dumps`.  Numbers are modelled as integers (the
payload fields the manager touches are strings and integers); object keys
are strings. -/
inductive Json where
  | null : Json
  | bool (b : Bool) : Json
  | int (n : Int) : Json
  | str (s : List Char) : Json
  | arr (xs : List Json) : Json
  | obj (kvs : List (List Char × Json)) : Json

/-- The `{` character (written via its code point). -/
def lbraceChar : Char := Char.ofNat 123

/-- The `}` character (written via its code point). -/
def rbraceChar : Char := Char.ofNat 125

/-- Hexadecimal digit character (lower case, as Python emits in `\uXXXX`). -/
def hexChar (d : Nat) : Char :=
  if d < 10 then Char.ofNat (48 + d) else Char.ofNat (87 + d)

/-- Escaping of one character inside a JSON string, following
`json.dumps(..., ensure_ascii=False)`: quote and backslash are escaped,
the five short control escapes are used, remaining control characters get
`\u00XX`, everything else passes through verbatim. -/
def escapeChar (c : Char) : List Char :=
  if c = '"' then ['\\', '"']
  else if c = '\\' then ['\\', '\\']
  else if c = '\n' then ['\\', 'n']
  else if c = '\t' then ['\\', 't']
  else if c = '\x0d' then ['\\', 'r']
  else if c = '\x08' then ['\\', 'b']
  else if c = '\x0c' then ['\\', 'f']
  else if c.toNat < 32 then
    ['\\', 'u', '0', '0', hexChar (c.toNat / 16), hexChar (c.toNat % 16)]
  else [c]

/-- Escape a whole JSON string body. -/
def escapeStr : List Char → List Char
  | [] => []
  | c :: cs => escapeChar c ++ escapeStr cs

/-- Serialised JSON string literal (with surrounding quotes). -/
def dumpStr (s : List Char) : List Char := '"' :: escapeStr s ++ ['"']

mutual

/-- `json.dumps(..., ensure_ascii=False)` with the default separators
`", "` and `": "`, producing a character list. -/
def Json.dumps : Json → List Char
  | .null => "null".data
  | .bool true => "true".data
  | .bool false => "false".data
  | .int n => intToChars n
  | .str s => dumpStr s
  | .arr [] => ['[', ']']
  | .arr (x :: xs) => '[' :: (Json.dumps x ++ Json.dumpsItems xs) ++ [']']
  | .obj [] => [lbraceChar, rbraceChar]
  | .obj (kv :: kvs) =>
      lbraceChar :: (dumpStr kv.1 ++ ':' :: ' ' ::
        (Json.dumps kv.2 ++ Json.dumpsMembers kvs)) ++ [rbraceChar]

/-- Serialisation of the remaining items of an array, each preceded by
`", "`. -/
def Json.dumpsItems : List Json → List Char
  | [] => []
  | x :: xs => ',' :: ' ' :: (Json.dumps x ++ Json.dumpsItems xs)

/-- Serialisation of the remaining members of an object, each preceded by
`", "`. -/
def Json.dumpsMembers : List (List Char × Json) → List Char
  | [] => []
  | kv :: kvs => ',' :: ' ' :: (dumpStr kv.1 ++ ':' :: ' ' ::
      (Json.dumps kv.2 ++ Json.dumpsMembers kvs))

end

/-- Lookup of a key in a JSON object member list (Python `dict.get`:
the serialised dicts have unique keys; first match). -/
def jsonLookup (kvs : List (List Char × Json)) (k : List Char) : Option Json :=
  match kvs.find? (fun kv => kv.1 = k) with
  | some kv => some kv.2
  | none => none

/-- `dict.get(k)` on a JSON value that is known to be an object. -/
def Json.get? : Json → List Char → Option Json
  | .obj kvs, k => jsonLookup kvs k
  | _, _ => none

/-- Python truthiness of a JSON value (`bool(x)` after `json.loads`). -/
def Json.truthy : Json → Bool
  | .null => false
  | .bool b => b
  | .int n => n ≠ 0
  | .str s => !s.isEmpty
  | .arr xs => !xs.isEmpty
  | .obj kvs => !kvs.isEmpty

/-- Python `str()` of a JSON-decoded value.  Scalars are rendered exactly
(`None`, `True`, `False`, decimal integers, the string itself); for
containers the source would produce a Python `repr` string — modelled by
opaque markers, which no rule glob or protocol comparison in the claims
ever matches. -/
def pyStr : Json → String
  | .null => "None"
  | .bool true => "True"
  | .bool false => "False"
  | .int n => String.mk (intToChars n)
  | .str s => String.mk s
  | .arr _ => "<list>"
  | .obj _ => "<dict>"

/-! ## JSON parsing (`json.loads`) -/

/-- Whitespace skipped between JSON tokens. -/
def jsonWs (c : Char) : Bool := c = ' ' || c = '\t' || c = '\n' || c = '\x0d'

/-- Skip inter-token whitespace. -/
def skipWs (s : List Char) : List Char := s.dropWhile jsonWs

/-- ASCII decimal digit test. -/
def isDigitB (c : Char) : Bool := 48 ≤ c.toNat && c.toNat ≤ 57

/-- Value of a decimal digit character. -/
def digitVal (c : Char) : Nat := c.toNat - 48

/-- Value of a hexadecimal digit character. -/
def hexVal (c : Char) : Option Nat :=
  if 48 ≤ c.toNat && c.toNat ≤ 57 then some (c.toNat - 48)
  else if 97 ≤ c.toNat && c.toNat ≤ 102 then some (c.toNat - 87)
  else if 65 ≤ c.toNat && c.toNat ≤ 70 then some (c.toNat - 55)
  else none

/-- Single-character JSON string escapes. -/
def unescapeChar (c : Char) : Option Char :=
  if c = '"' then some '"'
  else if c = '\\' then some '\\'
  else if c = '/' then some '/'
  else if c = 'n' then some '\n'
  else if c = 't' then some '\t'
  else if c = 'r' then some '\x0d'
  else if c = 'b' then some '\x08'
  else if c = 'f' then some '\x0c'
  else none

/-- Parse the body of a JSON string literal (after the opening quote),
returning the decoded characters and the input after the closing quote. -/
def parseStrBody : Nat → List Char → Option (List Char × List Char)
  | 0, _ => none
  | _ + 1, [] => none
  | fuel + 1, c :: rest =>
    if c = '"' then some ([], rest)
    else if c = '\\' then
      match rest with
      | [] => none
      | e :: rest2 =>
        if e = 'u' then
          match rest2 with
          | h1 :: h2 :: h3 :: h4 :: rest3 =>
            match hexVal h1, hexVal h2, hexVal h3, hexVal h4 with
            | some a, some b, some c2, some d =>
              match parseStrBody fuel rest3 with
              | some (s, r) =>
                  some (Char.ofNat (((a * 16 + b) * 16 + c2) * 16 + d) :: s, r)
              | none => none
            | _, _, _, _ => none
          | _ => none
        else
          match unescapeChar e with
          | some c2 =>
            match parseStrBody fuel rest2 with
            | some (s, r) => some (c2 :: s, r)
            | none => none
          | none => none
    else
      match parseStrBody fuel rest with
      | some (s, r) => some (c :: s, r)
      | none => none

/-- Consume a run of decimal digits, Horner-accumulating their value. -/
def parseDigitsAcc : Nat → List Char → Nat × List Char
  | acc, [] => (acc, [])
  | acc, c :: rest =>
    if isDigitB c then parseDigitsAcc (acc * 10 + digitVal c) rest
    else (acc, c :: rest)

/-- Parse a JSON integer (optional minus sign followed by digits). -/
def parseNum : List Char → Option (Json × List Char)
  | [] => none
  | c :: rest =>
    if c = '-' then
      match rest with
      | [] => none
      | c2 :: rest2 =>
        if isDigitB c2 then
          let p := parseDigitsAcc (digitVal c2) rest2
          some (.int (-(p.1 : Int)), p.2)
        else none
    else if isDigitB c then
      let p := parseDigitsAcc (digitVal c) rest
      some (.int ((p.1 : Int)), p.2)
    else none

mutual

/-- Fuel-driven JSON value parser (the model of `json.loads` on the
grammar emitted by `Json.dumps`; leading whitespace is skipped). -/
def parseVal : Nat → List Char → Option (Json × List Char)
  | 0, _ => none
  | fuel + 1, s0 =>
    match skipWs s0 with
    | [] => none
    | c :: r =>
      if c = 'n' then
        match r with
        | 'u' :: 'l' :: 'l' :: r2 => some (.null, r2)
        | _ => none
      else if c = 't' then
        match r with
        | 'r' :: 'u' :: 'e' :: r2 => some (.bool true, r2)
        | _ => none
      else if c = 'f' then
        match r with
        | 'a' :: 'l' :: 's' :: 'e' :: r2 => some (.bool false, r2)
        | _ => none
      else if c = '"' then
        match parseStrBody (r.length + 1) r with
        | some (s2, r2) => some (.str s2, r2)
        | none => none
      else if c = '[' then
        match skipWs r with
        | [] => none
        | c2 :: r2 =>
          if c2 = ']' then some (.arr [], r2)
          else
            match parseItems fuel (c2 :: r2) with
            | some (xs, r3) => some (.arr xs, r3)
            | none => none
      else if c = lbraceChar then
        match skipWs r with
        | [] => none
        | c2 :: r2 =>
          if c2 = rbraceChar then some (.obj [], r2)
          else
            match parseMembers fuel (c2 :: r2) with
            | some (kvs, r3) => some (.obj kvs, r3)
            | none => none
      else parseNum (c :: r)

/-- Parse the items of a non-empty JSON array up to the closing bracket. -/
def parseItems : Nat → List Char → Option (List Json × List Char)
  | 0, _ => none
  | fuel + 1, s =>
    match parseVal fuel s with
    | some (x, r) =>
      match skipWs r with
      | ',' :: r2 =>
        match parseItems fuel r2 with
        | some (xs, r3) => some (x :: xs, r3)
        | none => none
      | ']' :: r2 => some ([x], r2)
      | _ => none
    | none => none

/-- Parse the members of a non-empty JSON object up to the closing brace. -/
def parseMembers : Nat → List Char → Option (List (List Char × Json) × List Char)
  | 0, _ => none
  | fuel + 1, s =>
    match skipWs s with
    | '"' :: r =>
      match parseStrBody (r.length + 1) r with
      | some (k, r2) =>
        match skipWs r2 with
        | ':' :: r3 =>
          match parseVal fuel r3 with
          | some (v, r4) =>
            match skipWs r4 with
            | ',' :: r5 =>
              match parseMembers fuel r5 with
              | some (kvs, r6) => some ((k, v) :: kvs, r6)
              | none => none
            | c :: r5 =>
              if c = rbraceChar then some ([(k, v)], r5) else none
            | [] => none
          | none => none
        | _ => none
      | none => none
    | _ => none

end

/-- `json.loads` on a serialised payload: parse one JSON value and demand
that only whitespace remains. -/
def Json.loads (s : List Char) : Option Json :=
  match parseVal (s.length + 1) s with
  | some (j, rest) => if (skipWs rest).isEmpty then some j else none
  | none => none

/-! ### Correctness of the JSON round-trip (`loads` after `dumps`) -/

/-- The input does not begin with a decimal digit (boundary condition for
maximal-munch number parsing). -/
def headNotDigit : List Char → Bool
  | [] => true
  | c :: _ => !isDigitB c

theorem jsonWs_false_of_ge (c : Char) (h : 34 ≤ c.toNat) : jsonWs c = false := by
  have h1 : c ≠ ' ' := fun e => absurd (e ▸ h) (by decide)
  have h2 : c ≠ '\t' := fun e => absurd (e ▸ h) (by decide)
  have h3 : c ≠ '\n' := fun e => absurd (e ▸ h) (by decide)
  have h4 : c ≠ '\x0d' := fun e => absurd (e ▸ h) (by decide)
  simp [jsonWs, h1, h2, h3, h4]

theorem skipWs_cons_of_ge (c : Char) (s : List Char) (h : 34 ≤ c.toNat) :
    skipWs (c :: s) = c :: s := by
  simp [skipWs, List.dropWhile_cons, jsonWs_false_of_ge c h]

theorem digitChar_toNat (d : Nat) (h : d < 10) : (digitChar d).toNat = 48 + d := by
  interval_cases d <;> decide

theorem isDigitB_digitChar (d : Nat) (h : d < 10) : isDigitB (digitChar d) = true := by
  interval_cases d <;> decide

theorem digitVal_digitChar (d : Nat) (h : d < 10) : digitVal (digitChar d) = d := by
  interval_cases d <;> decide

theorem hexVal_hexChar (d : Nat) (h : d < 16) : hexVal (hexChar d) = some d := by
  interval_cases d <;> decide

theorem digitsLE_ne_nil (fuel n : Nat) : digitsLE (fuel + 1) n ≠ [] := by
  simp only [digitsLE]
  split <;> simp

theorem digitsLE_lt (fuel n : Nat) : ∀ x ∈ digitsLE fuel n, x < 10 := by
  induction fuel generalizing n with
  | zero => simp [digitsLE]
  | succ f ih =>
    intro x hx
    simp only [digitsLE] at hx
    split at hx
    · rename_i hn
      rw [List.mem_singleton] at hx
      omega
    · rcases List.mem_cons.mp hx with h | h
      · subst h
        exact Nat.mod_lt _ (by omega)
      · exact ih _ x h

theorem ofDigits_digitsLE (fuel n : Nat) (h : n + 1 ≤ fuel) :
    Nat.ofDigits 10 (digitsLE fuel n) = n := by
  induction fuel generalizing n with
  | zero => omega
  | succ f ih =>
    simp only [digitsLE]
    split
    · simp [Nat.ofDigits_singleton]
    · rename_i hn
      have hdiv : n / 10 < n := Nat.div_lt_self (by omega) (by omega)
      rw [Nat.ofDigits_cons, ih (n / 10) (by omega)]
      omega

theorem parseDigitsAcc_map (l : List Nat) :
    ∀ acc r, (∀ d ∈ l, d < 10) → headNotDigit r = true →
    parseDigitsAcc acc (l.map digitChar ++ r) =
      (acc * 10 ^ l.length + Nat.ofDigits 10 l.reverse, r) := by
  induction l with
  | nil =>
    intro acc r _ hr
    cases r with
    | nil => simp [parseDigitsAcc, Nat.ofDigits_nil]
    | cons c r2 =>
      simp only [headNotDigit, Bool.not_eq_true'] at hr
      simp [parseDigitsAcc, hr, Nat.ofDigits_nil]
  | cons d l ih =>
    intro acc r hd hr
    have hd0 : d < 10 := hd d (by simp)
    simp only [List.map_cons, List.cons_append, parseDigitsAcc,
      isDigitB_digitChar d hd0, if_true, digitVal_digitChar d hd0]
    rw [List.append_eq, ih (acc * 10 + d) r (fun x hx => hd x (by simp [hx])) hr]
    have harith : (acc * 10 + d) * 10 ^ l.length + Nat.ofDigits 10 l.reverse =
        acc * 10 ^ (d :: l).length + Nat.ofDigits 10 (d :: l).reverse := by
      simp only [List.reverse_cons, Nat.ofDigits_append, List.length_reverse,
        List.length_cons, Nat.ofDigits_singleton, pow_succ]
      ring
    rw [harith]

theorem parseDigitsAcc_natToChars (n : Nat) (r : List Char) (hr : headNotDigit r = true) :
    parseDigitsAcc 0 (natToChars n ++ r) = (n, r) := by
  unfold natToChars
  rw [parseDigitsAcc_map _ 0 r
    (fun d hd => digitsLE_lt _ _ d (List.mem_reverse.mp hd)) hr]
  simp [List.reverse_reverse, ofDigits_digitsLE (n + 1) n (by omega)]

theorem natToChars_head (n : Nat) :
    ∃ d t, d < 10 ∧ natToChars n = digitChar d :: t := by
  unfold natToChars
  have hne := digitsLE_ne_nil n n
  cases hrev : (digitsLE (n + 1) n).reverse with
  | nil => exact absurd (List.reverse_eq_nil_iff.mp hrev) hne
  | cons d t =>
    refine ⟨d, t.map digitChar, ?_, by simp [hrev]⟩
    have hmem : d ∈ digitsLE (n + 1) n := by
      have : d ∈ (digitsLE (n + 1) n).reverse := by rw [hrev]; simp
      simpa using this
    exact digitsLE_lt _ _ d hmem

theorem parseNum_intToChars (n : Int) (r : List Char) (hr : headNotDigit r = true) :
    parseNum (intToChars n ++ r) = some (.int n, r) := by
  cases n with
  | ofNat m =>
    have hnn : ¬((Int.ofNat m) < 0) := Int.not_lt.mpr (Int.ofNat_zero_le m)
    have htn : (Int.ofNat m).toNat = m := rfl
    obtain ⟨d, t, hd, ht⟩ := natToChars_head m
    have hdig := parseDigitsAcc_natToChars m r hr
    rw [ht] at hdig
    simp only [parseDigitsAcc, List.cons_append, List.append_eq,
      isDigitB_digitChar d hd, if_true, digitVal_digitChar d hd,
      Nat.zero_mul, Nat.zero_add] at hdig
    have hnotminus : digitChar d ≠ '-' := fun e => by
      have h := digitChar_toNat d hd
      rw [e] at h
      have h45 : ('-').toNat = 45 := by decide
      omega
    simp only [intToChars, if_neg hnn, htn, ht, List.cons_append, parseNum,
      if_neg hnotminus, isDigitB_digitChar d hd, if_true,
      digitVal_digitChar d hd]
    rw [hdig]
    rfl
  | negSucc m =>
    have hneg : (Int.negSucc m) < 0 := Int.negSucc_lt_zero m
    have habs : (Int.negSucc m).natAbs = m + 1 := rfl
    obtain ⟨d, t, hd, ht⟩ := natToChars_head (m + 1)
    have hdig := parseDigitsAcc_natToChars (m + 1) r hr
    rw [ht] at hdig
    simp only [parseDigitsAcc, List.cons_append, List.append_eq,
      isDigitB_digitChar d hd, if_true, digitVal_digitChar d hd,
      Nat.zero_mul, Nat.zero_add] at hdig
    simp only [intToChars, if_pos hneg, habs, ht, List.cons_append, parseNum,
      if_pos rfl, isDigitB_digitChar d hd, if_true, digitVal_digitChar d hd]
    rw [hdig]
    simp only [Option.some.injEq, Prod.mk.injEq, Json.int.injEq, and_true]
    omega

theorem charNe_of_toNat_lt {c d : Char} (hbound : c.toNat ≤ 57) (hd : 58 ≤ d.toNat) :
    c ≠ d := fun e => by subst e; omega

theorem parseVal_num_head (fuel : Nat) (c : Char) (r : List Char)
    (h1 : 45 ≤ c.toNat) (h2 : c.toNat ≤ 57) :
    parseVal (fuel + 1) (c :: r) = parseNum (c :: r) := by
  have hn : c ≠ 'n' := charNe_of_toNat_lt h2 (by decide)
  have ht : c ≠ 't' := charNe_of_toNat_lt h2 (by decide)
  have hf : c ≠ 'f' := charNe_of_toNat_lt h2 (by decide)
  have hq : c ≠ '"' := fun e => absurd (e ▸ h1) (by decide)
  have hb : c ≠ '[' := charNe_of_toNat_lt h2 (by decide)
  have hbr : c ≠ lbraceChar := charNe_of_toNat_lt h2 (by decide)
  simp only [parseVal, skipWs_cons_of_ge c r (by omega),
    if_neg hn, if_neg ht, if_neg hf, if_neg hq, if_neg hb, if_neg hbr]

theorem escapeStr_length (s : List Char) : s.length ≤ (escapeStr s).length := by
  induction s with
  | nil => simp [escapeStr]
  | cons c cs ih =>
    have h1 : 1 ≤ (escapeChar c).length := by
      unfold escapeChar
      split
      · simp
      · split
        · simp
        · split
          · simp
          · split
            · simp
            · split
              · simp
              · split
                · simp
                · split
                  · simp
                  · split <;> simp
    simp only [escapeStr, List.length_append, List.length_cons]
    omega

theorem parseStrBody_plain (fuel : Nat) (c : Char) (tail : List Char)
    (h1 : ¬(c = '"')) (h2 : ¬(c = '\\')) :
    parseStrBody (fuel + 1) (c :: tail) =
      match parseStrBody fuel tail with
      | some (s, r) => some (c :: s, r)
      | none => none := by
  simp only [parseStrBody, if_neg h1, if_neg h2]

theorem parseStrBody_quote (fuel : Nat) (tail : List Char) :
    parseStrBody (fuel + 1) ('"' :: tail) = some ([], tail) := by
  simp [parseStrBody]

theorem parseStrBody_esc (fuel : Nat) (e c2 : Char) (tail : List Char)
    (he : unescapeChar e = some c2) (hu : ¬(e = 'u')) :
    parseStrBody (fuel + 1) ('\\' :: e :: tail) =
      match parseStrBody fuel tail with
      | some (s, r) => some (c2 :: s, r)
      | none => none := by
  have hq : ¬(('\\' : Char) = '"') := by decide
  simp only [parseStrBody, if_neg hq, if_pos rfl, if_true, if_neg hu, he]

theorem parseStrBody_unicode (fuel m : Nat) (hm : m < 256) (tail : List Char) :
    parseStrBody (fuel + 1)
      ('\\' :: 'u' :: '0' :: '0' :: hexChar (m / 16) :: hexChar (m % 16) :: tail) =
      match parseStrBody fuel tail with
      | some (s, r) => some (Char.ofNat m :: s, r)
      | none => none := by
  have hq : ¬(('\\' : Char) = '"') := by decide
  have hhi : m / 16 < 16 := by omega
  have hlo : m % 16 < 16 := by omega
  have h0 : hexVal '0' = some 0 := by decide
  simp only [parseStrBody, if_neg hq, if_pos rfl, if_true, h0,
    hexVal_hexChar _ hhi, hexVal_hexChar _ hlo]
  have harith : ((0 * 16 + 0) * 16 + m / 16) * 16 + m % 16 = m := by omega
  rw [harith]

theorem parseStrBody_escape (s : List Char) : ∀ fuel rest, s.length + 1 ≤ fuel →
    parseStrBody fuel (escapeStr s ++ '"' :: rest) = some (s, rest) := by
  induction s with
  | nil =>
    intro fuel rest h
    match fuel, h with
    | fuel + 1, _ => simpa [escapeStr] using parseStrBody_quote fuel rest
  | cons c cs ih =>
    intro fuel rest h
    match fuel, h with
    | fuel + 1, h =>
      have hrec := ih fuel rest (by simp at h; omega)
      by_cases h1 : c = '"'
      · subst h1
        have hesc : escapeChar '"' = ['\\', '"'] := rfl
        simp only [escapeStr, hesc, List.cons_append, List.nil_append, List.append_assoc]
        rw [parseStrBody_esc fuel '"' '"' _ (by decide) (by decide), hrec]
      · by_cases h2 : c = '\\'
        · subst h2
          have hesc : escapeChar '\\' = ['\\', '\\'] := rfl
          simp only [escapeStr, hesc, List.cons_append, List.nil_append, List.append_assoc]
          rw [parseStrBody_esc fuel '\\' '\\' _ (by decide) (by decide), hrec]
        · by_cases h3 : c = '\n'
          · subst h3
            have hesc : escapeChar '\n' = ['\\', 'n'] := rfl
            simp only [escapeStr, hesc, List.cons_append, List.nil_append, List.append_assoc]
            rw [parseStrBody_esc fuel 'n' '\n' _ (by decide) (by decide), hrec]
          · by_cases h4 : c = '\t'
            · subst h4
              have hesc : escapeChar '\t' = ['\\', 't'] := rfl
              simp only [escapeStr, hesc, List.cons_append, List.nil_append, List.append_assoc]
              rw [parseStrBody_esc fuel 't' '\t' _ (by decide) (by decide), hrec]
            · by_cases h5 : c = '\x0d'
              · subst h5
                have hesc : escapeChar '\x0d' = ['\\', 'r'] := rfl
                simp only [escapeStr, hesc, List.cons_append, List.nil_append,
                  List.append_assoc]
                rw [parseStrBody_esc fuel 'r' '\x0d' _ (by decide) (by decide), hrec]
              · by_cases h6 : c = '\x08'
                · subst h6
                  have hesc : escapeChar '\x08' = ['\\', 'b'] := rfl
                  simp only [escapeStr, hesc, List.cons_append, List.nil_append,
                    List.append_assoc]
                  rw [parseStrBody_esc fuel 'b' '\x08' _ (by decide) (by decide), hrec]
                · by_cases h7 : c = '\x0c'
                  · subst h7
                    have hesc : escapeChar '\x0c' = ['\\', 'f'] := rfl
                    simp only [escapeStr, hesc, List.cons_append, List.nil_append,
                      List.append_assoc]
                    rw [parseStrBody_esc fuel 'f' '\x0c' _ (by decide) (by decide), hrec]
                  · by_cases h8 : c.toNat < 32
                    · have hesc : escapeChar c = ['\\', 'u', '0', '0',
                          hexChar (c.toNat / 16), hexChar (c.toNat % 16)] := by
                        simp only [escapeChar, if_neg h1, if_neg h2, if_neg h3, if_neg h4,
                          if_neg h5, if_neg h6, if_neg h7, if_pos h8]
                      simp only [escapeStr, hesc, List.cons_append, List.nil_append,
                        List.append_assoc]
                      rw [parseStrBody_unicode fuel c.toNat (by omega) _, hrec,
                        Char.ofNat_toNat]
                    · have hesc : escapeChar c = [c] := by
                        simp only [escapeChar, if_neg h1, if_neg h2, if_neg h3, if_neg h4,
                          if_neg h5, if_neg h6, if_neg h7, if_neg h8]
                      simp only [escapeStr, hesc, List.cons_append, List.nil_append,
                        List.append_assoc]
                      rw [parseStrBody_plain fuel c _ h1 h2, hrec]

theorem intToChars_head (n : Int) :
    ∃ c t, intToChars n = c :: t ∧ 45 ≤ c.toNat ∧ c.toNat ≤ 57 := by
  unfold intToChars
  split
  · exact ⟨'-', _, rfl, by decide, by decide⟩
  · obtain ⟨d, t, hd, ht⟩ := natToChars_head n.toNat
    have hdc := digitChar_toNat d hd
    exact ⟨digitChar d, t, ht, by omega, by omega⟩

theorem dumps_head (j : Json) :
    ∃ c t, Json.dumps j = c :: t ∧ 34 ≤ c.toNat ∧ c.toNat ≠ 93 := by
  cases j with
  | null => exact ⟨'n', _, rfl, by decide, by decide⟩
  | bool b =>
    cases b with
    | true => exact ⟨'t', _, rfl, by decide, by decide⟩
    | false => exact ⟨'f', _, rfl, by decide, by decide⟩
  | int n =>
    obtain ⟨c, t, hct, h45, h57⟩ := intToChars_head n
    exact ⟨c, t, hct, by omega, by omega⟩
  | str s => exact ⟨'"', _, rfl, by decide, by decide⟩
  | arr xs =>
    cases xs with
    | nil => exact ⟨'[', _, rfl, by decide, by decide⟩
    | cons x xs => exact ⟨'[', _, rfl, by decide, by decide⟩
  | obj kvs =>
    cases kvs with
    | nil => exact ⟨lbraceChar, _, rfl, by decide, by decide⟩
    | cons kv kvs => exact ⟨lbraceChar, _, rfl, by decide, by decide⟩

theorem dumps_length_pos (j : Json) : 1 ≤ (Json.dumps j).length := by
  obtain ⟨c, t, h, -, -⟩ := dumps_head j
  simp [h]

theorem dumpStr_length (s : List Char) :
    (dumpStr s).length = (escapeStr s).length + 2 := by
  simp [dumpStr]

theorem headNotDigit_items (xs : List Json) (r : List Char) :
    headNotDigit (Json.dumpsItems xs ++ ']' :: r) = true := by
  cases xs <;> rfl

theorem headNotDigit_members (kvs : List (List Char × Json)) (r : List Char) :
    headNotDigit (Json.dumpsMembers kvs ++ rbraceChar :: r) = true := by
  cases kvs <;> rfl

theorem skipWs_cons_space (s : List Char) : skipWs (' ' :: s) = skipWs s := by
  simp [skipWs, List.dropWhile_cons, jsonWs]

theorem parseVal_cons_space (fuel : Nat) (s : List Char) :
    parseVal fuel (' ' :: s) = parseVal fuel s := by
  cases fuel with
  | zero => rfl
  | succ f => simp only [parseVal, skipWs_cons_space]

theorem parseItems_cons_space (fuel : Nat) (s : List Char) :
    parseItems fuel (' ' :: s) = parseItems fuel s := by
  cases fuel with
  | zero => rfl
  | succ f => simp only [parseItems, parseVal_cons_space]

theorem parseMembers_cons_space (fuel : Nat) (s : List Char) :
    parseMembers fuel (' ' :: s) = parseMembers fuel s := by
  cases fuel with
  | zero => rfl
  | succ f => simp only [parseMembers, skipWs_cons_space]


theorem parse_dumps (fuel : Nat) :
    (∀ j r, (Json.dumps j).length ≤ fuel → headNotDigit r = true →
      parseVal fuel (Json.dumps j ++ r) = some (j, r)) ∧
    (∀ x xs r, (Json.dumps x).length + (Json.dumpsItems xs).length + 1 ≤ fuel →
      parseItems fuel (Json.dumps x ++ (Json.dumpsItems xs ++ ']' :: r)) =
        some (x :: xs, r)) ∧
    (∀ k v kvs r,
      (dumpStr k).length + (Json.dumps v).length + (Json.dumpsMembers kvs).length + 3 ≤
        fuel →
      parseMembers fuel (dumpStr k ++ ':' :: ' ' ::
        (Json.dumps v ++ (Json.dumpsMembers kvs ++ rbraceChar :: r))) =
        some ((k, v) :: kvs, r)) := by
  induction fuel with
  | zero =>
    refine ⟨fun j r hlen _ => ?_, fun x xs r hlen => ?_, fun k v kvs r hlen => ?_⟩
    · exact absurd hlen (by have := dumps_length_pos j; omega)
    · exact absurd hlen (by omega)
    · exact absurd hlen (by omega)
  | succ fuel ih =>
    obtain ⟨ih1, ih2, ih3⟩ := ih
    refine ⟨fun j r hlen hr => ?_, fun x xs r hlen => ?_, fun k v kvs r hlen => ?_⟩
    · cases j with
      | null => rfl
      | bool b => cases b <;> rfl
      | int n =>
        obtain ⟨c, t, hct, h45, h57⟩ := intToChars_head n
        have hd : Json.dumps (.int n) = intToChars n := rfl
        rw [hd, hct, List.cons_append, parseVal_num_head fuel c _ h45 h57,
          ← List.cons_append, ← hct]
        exact parseNum_intToChars n r hr
      | str s =>
        have hd : Json.dumps (.str s) = '"' :: (escapeStr s ++ ['"']) := rfl
        rw [hd]
        simp only [List.cons_append, List.append_assoc, List.nil_append]
        simp only [parseVal, skipWs_cons_of_ge '"' (escapeStr s ++ '"' :: r) (by decide)]
        rw [parseStrBody_escape s _ r (by
          have := escapeStr_length s
          simp only [List.length_append, List.length_cons]
          omega)]
        simp
      | arr xs =>
        cases xs with
        | nil => rfl
        | cons x xs =>
          have hlen2 : (Json.dumps x).length + (Json.dumpsItems xs).length + 1 ≤ fuel := by
            have hd : Json.dumps (.arr (x :: xs)) =
                '[' :: ((Json.dumps x ++ Json.dumpsItems xs) ++ [']']) := rfl
            rw [hd] at hlen
            simp only [List.length_cons, List.length_append] at hlen
            omega
          obtain ⟨c, t, hct, hge, hne93⟩ := dumps_head x
          have hcne : ¬(c = ']') := fun e => hne93 (by rw [e]; decide)
          have hd : Json.dumps (.arr (x :: xs)) =
              '[' :: ((Json.dumps x ++ Json.dumpsItems xs) ++ [']']) := rfl
          rw [hd, hct]
          simp only [List.cons_append, List.append_assoc, List.nil_append]
          have hsw : skipWs (c :: (t ++ (Json.dumpsItems xs ++ ']' :: r))) =
              c :: (t ++ (Json.dumpsItems xs ++ ']' :: r)) :=
            skipWs_cons_of_ge c _ hge
          simp only [parseVal,
            skipWs_cons_of_ge '[' (c :: (t ++ (Json.dumpsItems xs ++ ']' :: r)))
              (by decide), hsw]
          have hfold : c :: (t ++ (Json.dumpsItems xs ++ ']' :: r)) =
              Json.dumps x ++ (Json.dumpsItems xs ++ ']' :: r) := by
            rw [hct, List.cons_append]
          simp only [if_neg hcne, hfold, ih2 x xs r hlen2]
          simp
      | obj kvs =>
        cases kvs with
        | nil => rfl
        | cons kv kvs =>
          obtain ⟨k, v⟩ := kv
          have hd : Json.dumps (.obj ((k, v) :: kvs)) =
              lbraceChar :: ((dumpStr k ++ ':' :: ' ' ::
                (Json.dumps v ++ Json.dumpsMembers kvs)) ++ [rbraceChar]) := rfl
          have hlen3 : (dumpStr k).length + (Json.dumps v).length +
              (Json.dumpsMembers kvs).length + 3 ≤ fuel := by
            rw [hd] at hlen
            simp only [List.length_cons, List.length_append] at hlen
            omega
          rw [hd]
          have hds : dumpStr k = '"' :: (escapeStr k ++ ['"']) := rfl
          rw [hds]
          simp only [List.cons_append, List.append_assoc, List.nil_append]
          have hsw : skipWs ('"' :: (escapeStr k ++ '"' :: (':' :: ' ' ::
              (Json.dumps v ++ (Json.dumpsMembers kvs ++ rbraceChar :: r))))) =
              '"' :: (escapeStr k ++ '"' :: (':' :: ' ' ::
              (Json.dumps v ++ (Json.dumpsMembers kvs ++ rbraceChar :: r)))) :=
            skipWs_cons_of_ge '"' _ (by decide)
          have hfold : ('"' : Char) :: (escapeStr k ++ '"' :: (':' :: ' ' ::
              (Json.dumps v ++ (Json.dumpsMembers kvs ++ rbraceChar :: r)))) =
              dumpStr k ++ ':' :: ' ' :: (Json.dumps v ++
                (Json.dumpsMembers kvs ++ rbraceChar :: r)) := by
            rw [hds]
            simp only [List.cons_append, List.append_assoc, List.nil_append]
          have hih3 : parseMembers fuel ('"' :: (escapeStr k ++ '"' :: (':' :: ' ' ::
              (Json.dumps v ++ (Json.dumpsMembers kvs ++ rbraceChar :: r))))) =
              some ((k, v) :: kvs, r) := by
            rw [hfold]
            exact ih3 k v kvs r hlen3
          simp only [parseVal,
            skipWs_cons_of_ge lbraceChar ('"' :: (escapeStr k ++ '"' :: (':' :: ' ' ::
              (Json.dumps v ++ (Json.dumpsMembers kvs ++ rbraceChar :: r)))))
              (by decide), hsw,
            if_neg (show ¬(lbraceChar = 'n') by decide),
            if_neg (show ¬(lbraceChar = 't') by decide),
            if_neg (show ¬(lbraceChar = 'f') by decide),
            if_neg (show ¬(lbraceChar = '"') by decide),
            if_neg (show ¬(lbraceChar = '[') by decide),
            if_pos (show lbraceChar = lbraceChar from rfl), if_true,
            if_neg (show ¬(('"' : Char) = rbraceChar) by decide), hih3]
    · have hb1 : (Json.dumps x).length ≤ fuel := by omega
      simp only [parseItems,
        ih1 x (Json.dumpsItems xs ++ ']' :: r) hb1 (headNotDigit_items xs r)]
      cases xs with
      | nil =>
        have hdi : Json.dumpsItems ([] : List Json) = [] := rfl
        simp only [hdi, List.nil_append,
          skipWs_cons_of_ge ']' r (by decide)]
      | cons y ys =>
        have hdi : Json.dumpsItems (y :: ys) =
            ',' :: ' ' :: (Json.dumps y ++ Json.dumpsItems ys) := rfl
        have hlen2 : (Json.dumps y).length + (Json.dumpsItems ys).length + 1 ≤ fuel := by
          rw [hdi] at hlen
          have := dumps_length_pos x
          simp only [List.length_cons, List.length_append] at hlen
          omega
        rw [hdi]
        simp only [List.cons_append, List.append_assoc, List.nil_append]
        simp only [skipWs_cons_of_ge ','
          (' ' :: (Json.dumps y ++ (Json.dumpsItems ys ++ ']' :: r))) (by decide)]
        simp only [parseItems_cons_space, ih2 y ys r hlen2]
    · have hds : dumpStr k = '"' :: (escapeStr k ++ ['"']) := rfl
      have hb1 : (Json.dumps v).length ≤ fuel := by
        have := dumpStr_length k
        omega
      rw [hds]
      simp only [List.cons_append, List.append_assoc, List.nil_append]
      have hsw : skipWs ('"' :: (escapeStr k ++ '"' :: (':' :: ' ' ::
          (Json.dumps v ++ (Json.dumpsMembers kvs ++ rbraceChar :: r))))) =
          '"' :: (escapeStr k ++ '"' :: (':' :: ' ' ::
          (Json.dumps v ++ (Json.dumpsMembers kvs ++ rbraceChar :: r)))) :=
        skipWs_cons_of_ge '"' _ (by decide)
      simp only [parseMembers, hsw]
      rw [parseStrBody_escape k _ _ (by
        have := escapeStr_length k
        simp only [List.length_append, List.length_cons]
        omega)]
      simp only [skipWs_cons_of_ge ':'
        (' ' :: (Json.dumps v ++ (Json.dumpsMembers kvs ++ rbraceChar :: r)))
        (by decide)]
      simp only [parseVal_cons_space,
        ih1 v (Json.dumpsMembers kvs ++ rbraceChar :: r) hb1
          (headNotDigit_members kvs r)]
      cases kvs with
      | nil =>
        have hdm : Json.dumpsMembers ([] : List (List Char × Json)) = [] := rfl
        simp only [hdm, List.nil_append,
          skipWs_cons_of_ge rbraceChar r (by decide)]
        simp [rbraceChar]
      | cons kv2 kvs2 =>
        obtain ⟨k2, v2⟩ := kv2
        have hdm : Json.dumpsMembers ((k2, v2) :: kvs2) =
            ',' :: ' ' :: (dumpStr k2 ++ ':' :: ' ' ::
              (Json.dumps v2 ++ Json.dumpsMembers kvs2)) := rfl
        have hlen2 : (dumpStr k2).length + (Json.dumps v2).length +
            (Json.dumpsMembers kvs2).length + 3 ≤ fuel := by
          rw [hdm] at hlen
          have := dumpStr_length k
          simp only [List.length_cons, List.length_append] at hlen
          omega
        rw [hdm]
        simp only [List.cons_append, List.append_assoc, List.nil_append]
        simp only [skipWs_cons_of_ge ','
          (' ' :: (dumpStr k2 ++ ':' :: ' ' :: (Json.dumps v2 ++
            (Json.dumpsMembers kvs2 ++ rbraceChar :: r)))) (by decide)]
        simp only [parseMembers_cons_space, ih3 k2 v2 kvs2 r hlen2]

/-- The stored `payload_json` deserialises back to exactly the payload that
was serialised: `json.loads(json.dumps(P)) == P` on the modelled JSON
values. -/
theorem Json.loads_dumps (j : Json) : Json.loads (Json.dumps j) = some j := by
  have h := (parse_dumps ((Json.dumps j).length + 1)).1 j [] (by omega) rfl
  rw [List.append_nil] at h
  simp [Json.loads, h, skipWs]

/-! ## Shell-glob matching (Python `fnmatch.fnmatchcase`) -/

/-- Split a bracket expression at the first closing `]`; `none` when the
pattern has no closing bracket. -/
def bracketSplit : List Char → Option (List Char × List Char)
  | [] => none
  | c :: rest =>
    if c = ']' then some ([], rest)
    else
      match bracketSplit rest with
      | some (content, rest2) => some (c :: content, rest2)
      | none => none

/-- Items of a bracket expression: `a-z` ranges and single characters
(a single character `c` behaves as the range `c-c`). -/
def bracketItems : List Char → List (Char × Char)
  | [] => []
  | c :: '-' :: d :: rest => (c, d) :: bracketItems rest
  | c :: rest => (c, c) :: bracketItems rest

/-- Parse the remainder of a bracket expression (after the opening `[`):
optional `!` negation, a leading `]` taken as a literal member, items up
to the closing `]`.  Returns `none` when no closing bracket exists — the
`[` is then matched literally, as `fnmatch.translate` does. -/
def parseBracket (ps : List Char) : Option (Bool × List (Char × Char) × List Char) :=
  let step : Bool × List Char :=
    match ps with
    | '!' :: rest => (true, rest)
    | _ => (false, ps)
  match step.2 with
  | ']' :: rest2 =>
    (match bracketSplit rest2 with
     | some (content, rest3) => some (step.1, bracketItems (']' :: content), rest3)
     | none => none)
  | other =>
    match bracketSplit other with
    | some (content, rest3) => some (step.1, bracketItems content, rest3)
    | none => none

/-- Membership of a character in the parsed bracket items (code-point
ranges, as in the regex `fnmatch.translate` produces). -/
def inBracket (items : List (Char × Char)) (c : Char) : Bool :=
  items.any (fun it => it.1.toNat ≤ c.toNat && c.toNat ≤ it.2.toNat)

/-- Fuel-driven shell-glob matcher: `*` matches any (possibly empty)
sequence, `?` any single character, `[...]`/`[!...]` character classes,
anything else literally (case-sensitively).  The fuel only forces
structural recursion; `fnmatchcase` supplies enough for any input. -/
def globMatchFuel : Nat → List Char → List Char → Bool
  | 0, _, _ => false
  | _ + 1, [], [] => true
  | _ + 1, [], _ :: _ => false
  | fuel + 1, p :: ps, s =>
    if p = '*' then
      globMatchFuel fuel ps s ||
        (match s with
         | [] => false
         | _ :: s2 => globMatchFuel fuel (p :: ps) s2)
    else if p = '?' then
      match s with
      | [] => false
      | _ :: s2 => globMatchFuel fuel ps s2
    else if p = '[' then
      match parseBracket ps with
      | none =>
        (match s with
         | [] => false
         | c :: s2 => (p = c) && globMatchFuel fuel ps s2)
      | some (neg, items, ps2) =>
        (match s with
         | [] => false
         | c :: s2 => (inBracket items c != neg) && globMatchFuel fuel ps2 s2)
    else
      match s with
      | [] => false
      | c :: s2 => (p = c) && globMatchFuel fuel ps s2

/-- Python `fnmatch.fnmatchcase(name, pattern)`: case-sensitive shell-glob
matching without any normalisation of the inputs. -/
def fnmatchcase (name pattern : String) : Bool :=
  globMatchFuel (pattern.data.length + name.data.length + 1) pattern.data name.data

/-! ## DVP client (`poller.py`) -/

/-- The normalized result of one device probe (`poller.PollResult`). -/
structure PollResult where
  success : Bool
  httpStatus : Option Nat
  latencyMs : Option Nat
  error : Option String
  protocolVersion : Option Int
  mainVersion : Option String
  firmwareVersion : Option String
  payload : Option Json

/-- Body of a 200 response, modelled after `json.loads` has been applied:
either not decodable as JSON (`invalidJson`, carrying the exception class
name and message the source interpolates), or a JSON object.  A JSON body
that is not an object is outside the modelled branches: on such input the
source raises at `payload.get` before producing any `PollResult`. -/
inductive HttpBody where
  | invalidJson (kind msg : String)
  | objBody (kvs : List (List Char × Json))

/-- Outcome of the single outbound HTTP exchange in `_poll_dvp1_http`,
abstracting the socket: an HTTP-level error (`urllib.error.HTTPError`
with its code), a transport error (`urllib.error.URLError` with its
reason), any other exception, or a response with a status code and a
body. -/
inductive HttpOutcome where
  | httpError (code : Nat)
  | urlError (reason : String)
  | exn (kind msg : String)
  | ok (status : Nat) (body : HttpBody)

/-- `str(payload.get("protocol", ""))`. -/
def protocolStr : Option Json → String
  | some j => pyStr j
  | none => ""

/-- Python `payload.get("protocol_version") == 1` (note `True == 1` holds
in Python, so a JSON `true` passes the check as well). -/
def pvIsOne : Option Json → Bool
  | some (.int n) => n = 1
  | some (.bool b) => b
  | _ => false

/-- `int(protocol_version) if isinstance(protocol_version, int) else None`
(Python `bool` is a subtype of `int`). -/
def pvAsInt : Option Json → Option Int
  | some (.int n) => some n
  | some (.bool b) => some (if b then 1 else 0)
  | _ => none

/-- `payload.get("versions", {})` followed by the `isinstance(dict)`
guard: any non-object value collapses to the empty dict. -/
def versionsOf (kvs : List (List Char × Json)) : List (List Char × Json) :=
  match jsonLookup kvs "versions".data with
  | some (.obj vkvs) => vkvs
  | _ => []

/-- `v.strip() if isinstance(v, str) and v.strip() else None` for a
versions field. -/
def strippedStrField (vkvs : List (List Char × Json)) (key : List Char) :
    Option String :=
  match jsonLookup vkvs key with
  | some (.str s) =>
    if (stripChars s).isEmpty then none else some (String.mk (stripChars s))
  | _ => none

/-- `_poll_dvp1_http`, given the abstract outcome of the one HTTP exchange
and the measured elapsed milliseconds (the source computes
`int((time.perf_counter() - t0) * 1000)` at each return site; all sites
measure the same probe, modelled by the single `elapsedMs`). -/
def pollDvp1Http (outcome : HttpOutcome) (elapsedMs : Nat) : PollResult :=
  match outcome with
  | .httpError code =>
      { success := false, httpStatus := some code, latencyMs := some elapsedMs,
        error := some ("http_error:" ++ natToString code), protocolVersion := none,
        mainVersion := none, firmwareVersion := none, payload := none }
  | .urlError reason =>
      { success := false, httpStatus := none, latencyMs := some elapsedMs,
        error := some ("url_error:" ++ reason), protocolVersion := none,
        mainVersion := none, firmwareVersion := none, payload := none }
  | .exn kind msg =>
      { success := false, httpStatus := none, latencyMs := some elapsedMs,
        error := some ("exception:" ++ kind ++ ":" ++ msg), protocolVersion := none,
        mainVersion := none, firmwareVersion := none, payload := none }
  | .ok status body =>
    if status ≠ 200 then
      { success := false, httpStatus := some status, latencyMs := some elapsedMs,
        error := some ("http_status:" ++ natToString status), protocolVersion := none,
        mainVersion := none, firmwareVersion := none, payload := none }
    else
      match body with
      | .invalidJson kind msg =>
          { success := false, httpStatus := some status, latencyMs := some elapsedMs,
            error := some ("invalid_json:" ++ kind ++ ":" ++ msg),
            protocolVersion := none, mainVersion := none, firmwareVersion := none,
            payload := none }
      | .objBody kvs =>
        let pv := jsonLookup kvs "protocol_version".data
        if protocolStr (jsonLookup kvs "protocol".data) ≠ "dvp" || !pvIsOne pv then
          { success := false, httpStatus := some status, latencyMs := some elapsedMs,
            error := some "unsupported_protocol", protocolVersion := pvAsInt pv,
            mainVersion := none, firmwareVersion := none,
            payload := some (Json.obj kvs) }
        else
          let vkvs := versionsOf kvs
          let mainVersion := strippedStrField vkvs "main".data
          let firmwareVersion := strippedStrField vkvs "firmware".data
          match mainVersion with
          | none =>
              { success := false, httpStatus := some status,
                latencyMs := some elapsedMs, error := some "missing_versions.main",
                protocolVersion := some 1, mainVersion := none,
                firmwareVersion := firmwareVersion, payload := some (Json.obj kvs) }
          | some mv =>
              { success := true, httpStatus := some status,
                latencyMs := some elapsedMs, error := none, protocolVersion := some 1,
                mainVersion := some mv, firmwareVersion := firmwareVersion,
                payload := some (Json.obj kvs) }

/-! ## Store data model (`db.py`) -/

/-- A row of the `devices` table (the fields the reconcile path reads). -/
structure Device where
  id : Nat
  clusterId : Nat
  deviceKey : String
  vendor : String
  model : String
  lineNo : Option String
  ip : String
  port : Nat
  protocol : String
  path : String
  authType : String
  authToken : Option String
  enabled : Bool
  lastState : Option String
  lastStateAt : Option Nat
  updatedAt : Nat

/-- `poller.poll_device`: dispatch on the device's protocol tag.  Only
`dvp1-http` performs the HTTP exchange; any other tag returns the
`unsupported_device_protocol` result without touching `outcome` or
`elapsedMs` (no I/O). -/
def pollDevice (device : Device) (outcome : HttpOutcome) (elapsedMs : Nat) :
    PollResult :=
  if device.protocol = "dvp1-http" then pollDvp1Http outcome elapsedMs
  else
    { success := false, httpStatus := none, latencyMs := none,
      error := some ("unsupported_device_protocol:" ++ device.protocol),
      protocolVersion := none, mainVersion := none, firmwareVersion := none,
      payload := none }

/-- A row of the `baselines` table as returned by `get_baseline` (with
`allowed_main_globs_json` already parsed into the glob list, as the
source does on every read). -/
structure Baseline where
  id : Nat
  clusterId : Nat
  vendor : String
  model : String
  expectedMainVersion : String
  allowedMainGlobs : List String

/-- Modelled from the spec: the controlled-file-rule Store operations
(`get_controlled_file_rule` and its table) are code of this repository
that is not under `src/` — `db.py` has no such table and only `server.py`
calls them.  Spec §3: `ControlledFileRule (cluster_id, vendor, model,
paths: []glob, mode ∈ {auto, inline, fetch}, max_bytes ∈ [0, 2_000_000],
note?)`, unique per `(cluster_id, vendor, model)`. -/
structure ControlledFileRule where
  id : Nat
  clusterId : Nat
  vendor : String
  model : String
  paths : List String
  mode : Option String
  maxBytes : Option Int

/-- A row of the `device_snapshots` table. -/
structure Snapshot where
  id : Nat
  deviceId : Nat
  observedAt : Nat
  success : Bool
  httpStatus : Option Nat
  latencyMs : Option Nat
  error : Option String
  protocolVersion : Option Int
  mainVersion : Option String
  firmwareVersion : Option String
  payloadJson : Option (List Char)

/-- A row of the `version_catalog` table. -/
structure CatalogEntry where
  vendor : String
  model : String
  mainVersion : String
  changelogMd : Option String
  releasedAt : Option String
  riskLevel : Option String
  checksum : Option String
  createdAt : Nat

/-- One controlled-file change record `{path, old, new}` (the optional
content/diff fields the differ may add afterwards never alter these three
nor the membership of the list). -/
structure FileChange where
  path : String
  old : Option String
  new : Option String

/-- Structured rendering of the JSON payloads the reconciler attaches to
the events it creates. -/
inductive EventPayload where
  | stateChange (deviceId : Nat) (deviceSerial supplier deviceType ip : String)
      (port : Nat) (observedMainVersion : Option String) (httpStatus : Option Nat)
      (error : Option String) (controlledFilesChanged : Nat)
  | versionEvent (deviceId : Nat) (deviceSerial supplier deviceType : String)
      (oldMainVersion : Option String) (newMainVersion : String)
      (versionCatalog : Option CatalogEntry)
  | controlledFilesChange (deviceId : Nat) (deviceSerial supplier deviceType : String)
      (clusterId : Nat) (ruleId : Option Nat) (patterns : List String) (mode : String)
      (maxBytes : Nat) (changes : List FileChange) (prevSnapshotId : Option Nat)
      (currentSnapshotId : Nat)

/-- A row of the `events` table. -/
structure Event where
  id : Nat
  deviceId : Nat
  createdAt : Nat
  eventType : String
  oldState : Option String
  newState : Option String
  message : Option String
  payload : Option EventPayload

/-- The embedded database state: the tables the reconcile and status paths
touch, plus the auto-increment counters. -/
structure Db where
  devices : List Device
  baselines : List Baseline
  rules : List ControlledFileRule
  snapshots : List Snapshot
  events : List Event
  catalog : List CatalogEntry
  nextSnapshotId : Nat
  nextEventId : Nat

/-- `get_baseline`: lookup by `(cluster_id, vendor, model)` (unique). -/
def getBaseline (db : Db) (clusterId : Nat) (vendor model : String) :
    Option Baseline :=
  db.baselines.find? (fun b =>
    b.clusterId = clusterId && b.vendor = vendor && b.model = model)

/-- Modelled from the spec: `get_controlled_file_rule`, a lookup by
`(cluster_id, vendor, model)` with the same shape as `get_baseline`
(spec §4.1 "Controlled-file rule: same shape as baseline"). -/
def getControlledFileRule (db : Db) (clusterId : Nat) (vendor model : String) :
    Option ControlledFileRule :=
  db.rules.find? (fun r =>
    r.clusterId = clusterId && r.vendor = vendor && r.model = model)

/-- `baseline_allows(baseline, observed_main)`: equality with the expected
main version, else any allowed glob matching via `fnmatch.fnmatchcase`. -/
def baselineAllows (baseline : Baseline) (observedMain : String) : Bool :=
  if observedMain = baseline.expectedMainVersion then true
  else baseline.allowedMainGlobs.any (fun g => fnmatchcase observedMain g)

/-- `update_device_state`: writes `last_state`, `last_state_at` and
`updated_at` of the device row. -/
def updateDeviceState (db : Db) (deviceId : Nat) (state : String) (now : Nat) : Db :=
  { db with devices := db.devices.map (fun d =>
      if d.id = deviceId then
        { d with lastState := some state, lastStateAt := some now, updatedAt := now }
      else d) }

/-- `ensure_version_catalog_entry`: `INSERT ... ON CONFLICT DO NOTHING`
on `(vendor, model, main_version)` with all metadata NULL. -/
def ensureVersionCatalogEntry (db : Db) (vendor model mainVersion : String)
    (now : Nat) : Db :=
  if db.catalog.any (fun e =>
      e.vendor = vendor && e.model = model && e.mainVersion = mainVersion) then db
  else
    { db with catalog := db.catalog ++
        [{ vendor := vendor, model := model, mainVersion := mainVersion,
           changelogMd := none, releasedAt := none, riskLevel := none,
           checksum := none, createdAt := now }] }

/-- `get_version_catalog_item`: lookup by `(vendor, model, main_version)`. -/
def getVersionCatalogItem (db : Db) (vendor model mainVersion : String) :
    Option CatalogEntry :=
  db.catalog.find? (fun e =>
    e.vendor = vendor && e.model = model && e.mainVersion = mainVersion)

/-- `record_snapshot`: append one row with the next auto-increment id; the
payload is stored serialised through `json.dumps(..., ensure_ascii=False)`
(NULL when the payload is `None`).  Returns the new row id. -/
def recordSnapshot (db : Db) (deviceId : Nat) (success : Bool)
    (httpStatus : Option Nat) (latencyMs : Option Nat) (error : Option String)
    (protocolVersion : Option Int) (mainVersion firmwareVersion : Option String)
    (payload : Option Json) (observedAt : Nat) : Db × Nat :=
  ({ db with
      snapshots := db.snapshots ++
        [{ id := db.nextSnapshotId, deviceId := deviceId, observedAt := observedAt,
           success := success, httpStatus := httpStatus, latencyMs := latencyMs,
           error := error, protocolVersion := protocolVersion,
           mainVersion := mainVersion, firmwareVersion := firmwareVersion,
           payloadJson := payload.map Json.dumps }],
      nextSnapshotId := db.nextSnapshotId + 1 },
    db.nextSnapshotId)

/-- `create_event`: append one row with the next auto-increment id. -/
def createEvent (db : Db) (deviceId : Nat) (eventType : String)
    (oldState newState message : Option String) (payload : Option EventPayload)
    (now : Nat) : Db × Nat :=
  ({ db with
      events := db.events ++
        [{ id := db.nextEventId, deviceId := deviceId, createdAt := now,
           eventType := eventType, oldState := oldState, newState := newState,
           message := message, payload := payload }],
      nextEventId := db.nextEventId + 1 },
    db.nextEventId)

/-- `ORDER BY observed_at DESC, id DESC LIMIT 1`: `a` strictly later than
`b`. -/
def snapLater (a b : Snapshot) : Bool :=
  b.observedAt < a.observedAt || (a.observedAt = b.observedAt && b.id < a.id)

/-- Pick the row maximal in `(observed_at, id)` lexicographic order. -/
def pickLatest : List Snapshot → Option Snapshot
  | [] => none
  | s :: rest =>
    match pickLatest rest with
    | none => some s
    | some t => if snapLater t s then some t else some s

/-- Lazy re-parse of `payload_json` on read, mirroring the source: a NULL
or empty column gives `None`, a `json.JSONDecodeError` gives `None`. -/
def snapshotPayload (s : Snapshot) : Option Json :=
  match s.payloadJson with
  | none => none
  | some cs =>
    if cs.isEmpty then none
    else
      match Json.loads cs with
      | some j => some j
      | none => none

/-- A snapshot row together with its lazily parsed payload, as the dicts
returned by `get_latest_snapshot` / `get_latest_success_snapshot`. -/
structure SnapshotView where
  snap : Snapshot
  payload : Option Json

/-- `get_latest_snapshot`. -/
def getLatestSnapshot (db : Db) (deviceId : Nat) : Option SnapshotView :=
  (pickLatest (db.snapshots.filter (fun s => s.deviceId = deviceId))).map
    (fun s => { snap := s, payload := snapshotPayload s })

/-- `get_latest_success_snapshot`. -/
def getLatestSuccessSnapshot (db : Db) (deviceId : Nat) : Option SnapshotView :=
  (pickLatest (db.snapshots.filter (fun s =>
    s.deviceId = deviceId && s.success))).map
    (fun s => { snap := s, payload := snapshotPayload s })

/-- One row of the aggregate status view built by `list_status` — exactly
the keys the source puts in the dict: `device`, `baseline`,
`latest_snapshot`, `state`. -/
structure StatusRow where
  device : Device
  baseline : Option Baseline
  latestSnapshot : Option SnapshotView
  state : String

/-- `list_status`: for every device, the latest snapshot (success or not),
the baseline for its `(cluster, vendor, model)`, and a state label
recomputed from those two alone. -/
def listStatus (db : Db) : List StatusRow :=
  db.devices.map (fun dev =>
    let snap := getLatestSnapshot db dev.id
    let baseline := getBaseline db dev.clusterId dev.vendor dev.model
    let state :=
      match snap with
      | none => "never_polled"
      | some sv =>
        if !sv.snap.success then "offline"
        else
          match baseline with
          | none => "no_baseline"
          | some b =>
            let observed := match sv.snap.mainVersion with
              | some s => s
              | none => ""
            if baselineAllows b observed then "ok" else "mismatch"
    { device := dev, baseline := baseline, latestSnapshot := snap, state := state })

/-! ## Controlled-files differ and reconciler (`server.py`) -/

/-- `item.get("path") or item.get("name") or ""`, then `str(...).strip()`:
the first truthy value wins, absent and JSON-null count as falsy. -/
def pathOfItem (ikvs : List (List Char × Json)) : String :=
  let p := jsonLookup ikvs "path".data
  let nm := jsonLookup ikvs "name".data
  let chosen : Json :=
    match p with
    | some pj =>
      if pj.truthy then pj
      else
        match nm with
        | some nj => if nj.truthy then nj else .str []
        | none => .str []
    | none =>
      match nm with
      | some nj => if nj.truthy then nj else .str []
      | none => .str []
  pyStrip (pyStr chosen)

/-- `checksum.strip() if isinstance(checksum, str) and checksum.strip()
else None`. -/
def checksumOfItem (ikvs : List (List Char × Json)) : Option String :=
  match jsonLookup ikvs "checksum".data with
  | some (.str s) =>
    if (stripChars s).isEmpty then none else some (String.mk (stripChars s))
  | _ => none

/-- Python `x is not None` for a fetched dict field (absent or JSON null
are both `None` after `json.loads`). -/
def jsonFieldPresent : Option Json → Bool
  | some .null => false
  | some _ => true
  | none => false

/-- Rendering of a field inside the synthetic fingerprint f-string
(`None` for absent/null, Python `str` otherwise). -/
def pyStrOrNone : Option Json → String
  | some .null => "None"
  | some j => pyStr j
  | none => "None"

/-- The fingerprint of a reported file entry: the non-empty checksum, else
`size=<size>|mtime=<mtime>` when either is present, else `None` (the
entry is then ignored). -/
def fingerprintOfItem (ikvs : List (List Char × Json)) : Option String :=
  match checksumOfItem ikvs with
  | some c => some c
  | none =>
    let size := jsonLookup ikvs "size".data
    let mtime := jsonLookup ikvs "mtime".data
    if jsonFieldPresent size || jsonFieldPresent mtime then
      some ("size=" ++ pyStrOrNone size ++ "|mtime=" ++ pyStrOrNone mtime)
    else none

/-- Python-dict insertion: later entries with the same path replace the
stored value, preserving first-insertion order. -/
def assocSet : List (String × String) → String → String → List (String × String)
  | [], k, v => [(k, v)]
  | (k0, v0) :: rest, k, v =>
    if k0 = k then (k0, v) :: rest else (k0, v0) :: assocSet rest k v

/-- `dict.get` on the path-to-fingerprint map. -/
def assocGet (m : List (String × String)) (k : String) : Option String :=
  match m.find? (fun kv => kv.1 = k) with
  | some kv => some kv.2
  | none => none

/-- Fold over the reported `files` array building the path-to-fingerprint
map (non-dict items, empty paths and fingerprint-less entries are
skipped; the content fields of an entry feed only the content capture,
which is not modelled). -/
def extractEntriesList : List Json → List (String × String) → List (String × String)
  | [], acc => acc
  | item :: rest, acc =>
    match item with
    | .obj ikvs =>
      let path := pathOfItem ikvs
      if path = "" then extractEntriesList rest acc
      else
        match fingerprintOfItem ikvs with
        | some fp => extractEntriesList rest (assocSet acc path fp)
        | none => extractEntriesList rest acc
    | _ => extractEntriesList rest acc

/-- `_extract_reported_file_entries`: the normalized entries and whether
the payload reported a `files` array at all (a payload that is not a
dict, has no `files` key, or whose `files` is not a list counts as "not
supported"). -/
def extractReportedFileEntries (payload : Option Json) :
    List (String × String) × Bool :=
  match payload with
  | some (.obj kvs) =>
    (match jsonLookup kvs "files".data with
     | some (.arr items) => (extractEntriesList items [], true)
     | _ => ([], false))
  | _ => ([], false)

/-- Backslash-to-forward-slash mapping used on both pattern and path. -/
def mapSlash (s : String) : String :=
  String.mk (s.data.map (fun c => if c = '\\' then '/' else c))

/-- `_path_matches`: direct case-sensitive glob match, else the match
after mapping backslashes to forward slashes on both sides. -/
def pathMatches (pattern path : String) : Bool :=
  fnmatchcase path pattern || fnmatchcase (mapSlash path) (mapSlash pattern)

/-- `_select_controlled_files`: keep the entries whose path matches at
least one rule glob. -/
def selectControlledFiles (files : List (String × String)) (patterns : List String) :
    List (String × String) :=
  if files.isEmpty || patterns.isEmpty then []
  else files.filter (fun pf => patterns.any (fun pat => pathMatches pat pf.1))

/-- Insert into a sorted, duplicate-free list (ascending code-point
order, Python `sorted(set(...))`). -/
def sortedInsert (x : String) : List String → List String
  | [] => [x]
  | y :: ys =>
    if x = y then y :: ys
    else if stringLtB x y then x :: y :: ys
    else y :: sortedInsert x ys

/-- `sorted(set(l))` in ascending code-point order. -/
def sortedDedup (l : List String) : List String := l.foldr sortedInsert []

/-- The diff core: for each path in the sorted union of previous and
current selections, a `{path, old, new}` record whenever the fingerprints
differ (either side may be absent for adds and removals). -/
def computeFileChanges (prevSel currSel : List (String × String)) :
    List FileChange :=
  (sortedDedup (prevSel.map Prod.fst ++ currSel.map Prod.fst)).filterMap (fun p =>
    let oldFp := assocGet prevSel p
    let newFp := assocGet currSel p
    if oldFp ≠ newFp then some { path := p, old := oldFp, new := newFp } else none)

/-- `str(rule.get("mode") or "auto").strip().lower() or "auto"`, then the
membership check against `{auto, inline, fetch}`. -/
def normalizeMode (m : Option String) : String :=
  let base := match m with
    | some s => if s = "" then "auto" else s
    | none => "auto"
  let low := pyLower (pyStrip base)
  let low2 := if low = "" then "auto" else low
  if low2 = "auto" || low2 = "inline" || low2 = "fetch" then low2 else "auto"

/-- `int(raw) if raw is not None else 8192`, clamped into
`[0, 2_000_000]`. -/
def normalizeMaxBytes (raw : Option Int) : Nat :=
  let mb : Int := match raw with
    | some n => n
    | none => 8192
  (min mb 2000000).toNat

/-- `", ".join l`. -/
def joinComma : List String → String
  | [] => ""
  | [x] => x
  | x :: xs => x ++ ", " ++ joinComma xs

/-- The Chinese-language message of a `controlled_files_change` event:
the first three changed paths, with a `等N个文件` suffix beyond three. -/
def cfcMessage (pathsChanged : List String) : String :=
  let short := joinComma (pathsChanged.take 3)
  let more :=
    if pathsChanged.length > 3 then
      " 等" ++ natToString pathsChanged.length ++ "个文件"
    else ""
  pyStrip ("受控文件变更: " ++ short ++ more)

/-- Python truthiness of `res.main_version` (`None` or `""` are falsy). -/
def mainTruthy (mv : Option String) : Bool :=
  match mv with
  | some s => s ≠ ""
  | none => false

/-- `Option String` to `String` with `""` for `None` (`str(x or "")`). -/
def orEmpty (mv : Option String) : String :=
  match mv with
  | some s => s
  | none => ""

/-- `App._check_controlled_files`: guard chain, selection, diff, and —
when the change list is non-empty — creation of the
`controlled_files_change` event carrying the full change list.  The
content capture (observation rows, inline/fetch content, unified diff)
only enriches the change records with additional optional fields and
writes observation rows; it is not modelled, and the webhook POST is
fire-and-forget I/O outside the store. -/
def checkControlledFiles (db : Db) (device : Device) (res : PollResult)
    (prevSuccess : Option SnapshotView) (currentSnapshotId : Nat) (now : Nat) :
    Db × List FileChange :=
  if !res.success then (db, [])
  else
    match getControlledFileRule db device.clusterId device.vendor device.model with
    | none => (db, [])
    | some rule =>
      if rule.paths.isEmpty then (db, [])
      else
        let patterns := rule.paths
        let mode := normalizeMode rule.mode
        let maxBytes := normalizeMaxBytes rule.maxBytes
        let currE := extractReportedFileEntries res.payload
        if !currE.2 then (db, [])
        else
          let prevPayload := match prevSuccess with
            | some sv => sv.payload
            | none => none
          let prevE := extractReportedFileEntries prevPayload
          let currSel := selectControlledFiles currE.1 patterns
          let prevSel := if prevE.2 then selectControlledFiles prevE.1 patterns else []
          if currSel.isEmpty && prevSel.isEmpty then (db, [])
          else if !prevE.2 then (db, [])
          else
            let changes := computeFileChanges prevSel currSel
            if changes.isEmpty then (db, [])
            else
              let pathsChanged := (changes.map (fun c => c.path)).filter
                (fun p => !(pyStrip p).isEmpty)
              let ev := createEvent db device.id "controlled_files_change" none none
                (some (cfcMessage pathsChanged))
                (some (.controlledFilesChange device.id device.deviceKey device.vendor
                  device.model device.clusterId (some rule.id) patterns mode maxBytes
                  changes (prevSuccess.map (fun sv => sv.snap.id)) currentSnapshotId))
                now
              (ev.1, changes)

/-- `App._compute_state_and_message` (every branch returns a non-empty
state, so the source's `Optional` return is modelled as plain strings). -/
def computeStateAndMessage (db : Db) (device : Device) (res : PollResult)
    (controlledChanges : List FileChange) : String × String :=
  if !res.success then
    ("offline",
      match res.error with
      | some e => if e = "" then "offline" else e
      | none => "offline")
  else
    let observed := orEmpty res.mainVersion
    match getBaseline db device.clusterId device.vendor device.model with
    | none => ("no_baseline", "no_baseline")
    | some b =>
      if baselineAllows b observed then
        if !controlledChanges.isEmpty then
          let n := controlledChanges.length
          let paths := (controlledChanges.map (fun c => c.path)).filter
            (fun p => !(pyStrip p).isEmpty)
          let short := joinComma (paths.take 3)
          let more := if n > 3 then " 等" ++ natToString n ++ "个文件" else ""
          ("files_changed", "files_changed " ++ short ++ more)
        else ("ok", "ok observed=" ++ observed)
      else
        ("mismatch", "mismatch expected=" ++ b.expectedMainVersion ++
          " observed=" ++ observed)

/-- `f"{event_type} {prev_main or ''} -> {new_main}".strip()`. -/
def versionEventMessage (etype : String) (prevMain : Option String)
    (newMain : String) : String :=
  pyStrip (etype ++ " " ++
    (match prevMain with | some s => s | none => "") ++ " -> " ++ newMain)

/-- The summary dict `poll_and_record` returns. -/
structure PollSummary where
  deviceId : Nat
  snapshotId : Nat
  success : Bool
  httpStatus : Option Nat
  latencyMs : Nat
  error : Option String
  mainVersion : Option String

/-- Result of one reconcile: the new store state, the returned summary,
and a trace of whether (and with which arguments) the
`ensure_version_catalog_entry` branch was entered. -/
structure ReconcileOutcome where
  db : Db
  summary : PollSummary
  ensuredCatalog : Option (String × String × String)

/-- `App.poll_and_record`: read the previous successful snapshot, record
the new snapshot (substituting the measured elapsed milliseconds when the
client reported no latency), auto-create the catalog entry on successful
probes, run the differ, compute and write the new state, and emit
`state_change` / `version_observed` / `version_change` events.  The
webhook POSTs are fire-and-forget I/O and are not modelled. -/
def pollAndRecord (db : Db) (device : Device) (res : PollResult)
    (elapsedMs : Nat) (now : Nat) : ReconcileOutcome :=
  let prev := getLatestSuccessSnapshot db device.id
  let prevMain : Option String := match prev with
    | some sv => sv.snap.mainVersion
    | none => none
  let latencyMs := match res.latencyMs with
    | some l => l
    | none => elapsedMs
  let rec1 := recordSnapshot db device.id res.success res.httpStatus (some latencyMs)
    res.error res.protocolVersion res.mainVersion res.firmwareVersion res.payload now
  let db1 := rec1.1
  let snapshotId := rec1.2
  let ensured : Option (String × String × String) :=
    if res.success && mainTruthy res.mainVersion then
      some (pyStrip device.vendor, pyStrip device.model, orEmpty res.mainVersion)
    else none
  let db2 :=
    if res.success && mainTruthy res.mainVersion then
      ensureVersionCatalogEntry db1 (pyStrip device.vendor) (pyStrip device.model)
        (orEmpty res.mainVersion) now
    else db1
  let chk := checkControlledFiles db2 device res prev snapshotId now
  let db3 := chk.1
  let controlledChanges := chk.2
  let oldState := device.lastState
  let sm := computeStateAndMessage db3 device res controlledChanges
  let newState := sm.1
  let db4 := updateDeviceState db3 device.id newState now
  let db5 :=
    if oldState ≠ some newState then
      (createEvent db4 device.id "state_change" oldState (some newState) (some sm.2)
        (some (.stateChange device.id device.deviceKey device.vendor device.model
          device.ip device.port res.mainVersion res.httpStatus res.error
          controlledChanges.length)) now).1
    else db4
  let db6 :=
    if res.success && mainTruthy res.mainVersion then
      let newMain := orEmpty res.mainVersion
      if prevMain ≠ some newMain then
        let eventType :=
          if prevMain = none then "version_observed" else "version_change"
        let cat := getVersionCatalogItem db5 (pyStrip device.vendor)
          (pyStrip device.model) newMain
        (createEvent db5 device.id eventType prevMain (some newMain)
          (some (versionEventMessage eventType prevMain newMain))
          (some (.versionEvent device.id device.deviceKey device.vendor device.model
            prevMain newMain cat)) now).1
      else db5
    else db5
  let summary : PollSummary :=
    { deviceId := device.id
      snapshotId := snapshotId
      success := res.success
      httpStatus := res.httpStatus
      latencyMs := latencyMs
      error := res.error
      mainVersion := res.mainVersion }
  { db := db6, summary := summary, ensuredCatalog := ensured }

/-! ## Frame lemmas for the reconcile pipeline -/

/-- The version-drift event category. -/
def isVersionEvent (e : Event) : Bool :=
  e.eventType = "version_observed" || e.eventType = "version_change"

/-- The version-drift events of an event list, oldest first. -/
def versionEvents (l : List Event) : List Event := l.filter isVersionEvent

/-- The `state_change` events of an event list, oldest first. -/
def stateChangeEvents (l : List Event) : List Event :=
  l.filter (fun e => e.eventType = "state_change")

/-- The `controlled_files_change` events of an event list, oldest first. -/
def cfcEvents (l : List Event) : List Event :=
  l.filter (fun e => e.eventType = "controlled_files_change")

theorem filter_append_none (p : Event → Bool) (l suffix : List Event)
    (h : ∀ e ∈ suffix, p e = false) :
    (l ++ suffix).filter p = l.filter p := by
  rw [List.filter_append]
  have : suffix.filter p = [] := List.filter_eq_nil_iff.mpr (fun e he => by
    rw [h e he]; simp)
  rw [this, List.append_nil]

theorem ensureVCE_frame (db : Db) (vendor model mainVersion : String) (now : Nat) :
    (ensureVersionCatalogEntry db vendor model mainVersion now).snapshots =
        db.snapshots ∧
    (ensureVersionCatalogEntry db vendor model mainVersion now).events = db.events ∧
    (ensureVersionCatalogEntry db vendor model mainVersion now).devices =
        db.devices ∧
    (ensureVersionCatalogEntry db vendor model mainVersion now).baselines =
        db.baselines ∧
    (ensureVersionCatalogEntry db vendor model mainVersion now).rules = db.rules ∧
    (ensureVersionCatalogEntry db vendor model mainVersion now).nextEventId =
        db.nextEventId := by
  unfold ensureVersionCatalogEntry
  split <;> exact ⟨rfl, rfl, rfl, rfl, rfl, rfl⟩

theorem ensureVCE_catalog_congr (d1 d2 : Db) (vendor model mainVersion : String)
    (now : Nat) (h : d1.catalog = d2.catalog) :
    (ensureVersionCatalogEntry d1 vendor model mainVersion now).catalog =
    (ensureVersionCatalogEntry d2 vendor model mainVersion now).catalog := by
  unfold ensureVersionCatalogEntry
  rw [h]
  split <;> simp [h]

theorem checkCF_frame (db : Db) (device : Device) (res : PollResult)
    (prev : Option SnapshotView) (sid now : Nat) :
    (checkControlledFiles db device res prev sid now).1.snapshots = db.snapshots ∧
    (checkControlledFiles db device res prev sid now).1.catalog = db.catalog ∧
    (checkControlledFiles db device res prev sid now).1.devices = db.devices ∧
    (checkControlledFiles db device res prev sid now).1.baselines = db.baselines ∧
    (checkControlledFiles db device res prev sid now).1.rules = db.rules ∧
    (∃ suffix, (checkControlledFiles db device res prev sid now).1.events =
        db.events ++ suffix ∧
      ∀ e ∈ suffix, e.eventType = "controlled_files_change") := by
  unfold checkControlledFiles
  dsimp only
  repeat' split
  all_goals
    refine ⟨rfl, rfl, rfl, rfl, rfl, ?_⟩
  all_goals
    first
    | exact ⟨[], (List.append_nil _).symm, by simp⟩
    | exact ⟨[_], rfl, by intro e he; simp at he; subst he; rfl⟩

theorem recordSnapshot_fst_events (db : Db) (a : Nat) (b : Bool) (c : Option Nat)
    (d : Option Nat) (e : Option String) (f : Option Int) (g h : Option String)
    (p : Option Json) (t : Nat) :
    (recordSnapshot db a b c d e f g h p t).1.events = db.events := rfl

theorem recordSnapshot_fst_catalog (db : Db) (a : Nat) (b : Bool) (c : Option Nat)
    (d : Option Nat) (e : Option String) (f : Option Int) (g h : Option String)
    (p : Option Json) (t : Nat) :
    (recordSnapshot db a b c d e f g h p t).1.catalog = db.catalog := rfl

theorem recordSnapshot_fst_devices (db : Db) (a : Nat) (b : Bool) (c : Option Nat)
    (d : Option Nat) (e : Option String) (f : Option Int) (g h : Option String)
    (p : Option Json) (t : Nat) :
    (recordSnapshot db a b c d e f g h p t).1.devices = db.devices := rfl

theorem recordSnapshot_fst_baselines (db : Db) (a : Nat) (b : Bool) (c : Option Nat)
    (d : Option Nat) (e : Option String) (f : Option Int) (g h : Option String)
    (p : Option Json) (t : Nat) :
    (recordSnapshot db a b c d e f g h p t).1.baselines = db.baselines := rfl

theorem recordSnapshot_fst_rules (db : Db) (a : Nat) (b : Bool) (c : Option Nat)
    (d : Option Nat) (e : Option String) (f : Option Int) (g h : Option String)
    (p : Option Json) (t : Nat) :
    (recordSnapshot db a b c d e f g h p t).1.rules = db.rules := rfl

theorem createEvent_fst_snapshots (db : Db) (a : Nat) (t : String)
    (o n m : Option String) (p : Option EventPayload) (w : Nat) :
    (createEvent db a t o n m p w).1.snapshots = db.snapshots := rfl

theorem createEvent_fst_catalog (db : Db) (a : Nat) (t : String)
    (o n m : Option String) (p : Option EventPayload) (w : Nat) :
    (createEvent db a t o n m p w).1.catalog = db.catalog := rfl

theorem createEvent_fst_devices (db : Db) (a : Nat) (t : String)
    (o n m : Option String) (p : Option EventPayload) (w : Nat) :
    (createEvent db a t o n m p w).1.devices = db.devices := rfl

theorem createEvent_fst_events (db : Db) (a : Nat) (t : String)
    (o n m : Option String) (p : Option EventPayload) (w : Nat) :
    (createEvent db a t o n m p w).1.events = db.events ++
      [{ id := db.nextEventId, deviceId := a, createdAt := w, eventType := t,
         oldState := o, newState := n, message := m, payload := p }] := rfl

theorem updateDeviceState_snapshots (db : Db) (i : Nat) (s : String) (n : Nat) :
    (updateDeviceState db i s n).snapshots = db.snapshots := rfl

theorem updateDeviceState_events (db : Db) (i : Nat) (s : String) (n : Nat) :
    (updateDeviceState db i s n).events = db.events := rfl

theorem updateDeviceState_catalog (db : Db) (i : Nat) (s : String) (n : Nat) :
    (updateDeviceState db i s n).catalog = db.catalog := rfl

theorem ensureVCE_snapshots (db : Db) (v m mv : String) (n : Nat) :
    (ensureVersionCatalogEntry db v m mv n).snapshots = db.snapshots :=
  (ensureVCE_frame db v m mv n).1

theorem ensureVCE_events (db : Db) (v m mv : String) (n : Nat) :
    (ensureVersionCatalogEntry db v m mv n).events = db.events :=
  (ensureVCE_frame db v m mv n).2.1

theorem ensureVCE_devices (db : Db) (v m mv : String) (n : Nat) :
    (ensureVersionCatalogEntry db v m mv n).devices = db.devices :=
  (ensureVCE_frame db v m mv n).2.2.1

theorem checkCF_snapshots (db : Db) (device : Device) (res : PollResult)
    (prev : Option SnapshotView) (sid now : Nat) :
    (checkControlledFiles db device res prev sid now).1.snapshots = db.snapshots :=
  (checkCF_frame db device res prev sid now).1

theorem checkCF_catalog (db : Db) (device : Device) (res : PollResult)
    (prev : Option SnapshotView) (sid now : Nat) :
    (checkControlledFiles db device res prev sid now).1.catalog = db.catalog :=
  (checkCF_frame db device res prev sid now).2.1

theorem checkCF_devices (db : Db) (device : Device) (res : PollResult)
    (prev : Option SnapshotView) (sid now : Nat) :
    (checkControlledFiles db device res prev sid now).1.devices = db.devices :=
  (checkCF_frame db device res prev sid now).2.2.1

/-! ## Claim theorems -/

/-- C5: `baseline_allows(b, v)` returns true iff `v` equals
`b.expected_main_version` or some glob in `b.allowed_main_globs` matches
`v` under case-sensitive shell-glob semantics.  As a Lean function over
the baseline record it is pure, hence idempotent and independent of call
order by construction.  Boundary cases: empty `allowed_main_globs` with
expected `"1.8.2"` disallows `"1.8.3"`; the glob `"1.8.*"` matches
`"1.8.2"` but not `"1.9.0"`, and through `baseline_allows` admits
`"1.8.9"` alongside the expected version. -/
theorem c5_baseline_allows :
    (∀ (b : Baseline) (v : String),
      baselineAllows b v = true ↔
        (v = b.expectedMainVersion ∨
          ∃ g ∈ b.allowedMainGlobs, fnmatchcase v g = true)) ∧
    baselineAllows
      { id := 1, clusterId := 1, vendor := "VX", model := "M",
        expectedMainVersion := "1.8.2", allowedMainGlobs := [] } "1.8.3" = false ∧
    fnmatchcase "1.8.2" "1.8.*" = true ∧
    fnmatchcase "1.9.0" "1.8.*" = false ∧
    baselineAllows
      { id := 1, clusterId := 1, vendor := "VX", model := "M",
        expectedMainVersion := "1.8.2", allowedMainGlobs := ["1.8.*"] } "1.8.9" =
      true := by
  refine ⟨?_, by decide, by decide, by decide, by decide⟩
  intro b v
  by_cases h : v = b.expectedMainVersion
  · simp [baselineAllows, h]
  · simp [baselineAllows, h, List.any_eq_true]

/-- C4: the reconcile state function: a failed poll gives `offline` with
the transport error as message; a successful poll with no baseline gives
`no_baseline`; with a baseline that allows the observed main version it
gives `files_changed` when the controlled-file change list is non-empty
and `ok` otherwise; and with a baseline that disallows it, `mismatch`
with message `mismatch expected=<expected> observed=<observed>`. -/
theorem c4_state_function (db : Db) (device : Device) (res : PollResult)
    (changes : List FileChange) :
    (∀ e, res.success = false → res.error = some e → e ≠ "" →
      computeStateAndMessage db device res changes = ("offline", e)) ∧
    (res.success = true →
      getBaseline db device.clusterId device.vendor device.model = none →
      computeStateAndMessage db device res changes =
        ("no_baseline", "no_baseline")) ∧
    (∀ b, res.success = true →
      getBaseline db device.clusterId device.vendor device.model = some b →
      baselineAllows b (orEmpty res.mainVersion) = true → changes ≠ [] →
      (computeStateAndMessage db device res changes).1 = "files_changed") ∧
    (∀ b, res.success = true →
      getBaseline db device.clusterId device.vendor device.model = some b →
      baselineAllows b (orEmpty res.mainVersion) = true → changes = [] →
      computeStateAndMessage db device res changes =
        ("ok", "ok observed=" ++ orEmpty res.mainVersion)) ∧
    (∀ b, res.success = true →
      getBaseline db device.clusterId device.vendor device.model = some b →
      baselineAllows b (orEmpty res.mainVersion) = false →
      computeStateAndMessage db device res changes =
        ("mismatch", "mismatch expected=" ++ b.expectedMainVersion ++
          " observed=" ++ orEmpty res.mainVersion)) := by
  refine ⟨?_, ?_, ?_, ?_, ?_⟩
  · intro e hs he hne
    simp [computeStateAndMessage, hs, he, hne]
  · intro hs hb
    simp [computeStateAndMessage, hs, hb]
  · intro b hs hb hallow hne
    simp [computeStateAndMessage, hs, hb, hallow, hne]
  · intro b hs hb hallow hempty
    simp [computeStateAndMessage, hs, hb, hallow, hempty]
  · intro b hs hb hallow
    simp [computeStateAndMessage, hs, hb, hallow]

/-- Device fixture for claim C3: a device whose protocol tag is not
`dvp1-http`. -/
def c3Device : Device :=
  { id := 7, clusterId := 1, deviceKey := "SN-7", vendor := "VX", model := "M",
    lineNo := none, ip := "10.0.0.7", port := 8080, protocol := "gopher",
    path := "/.well-known/device-version", authType := "none", authToken := none,
    enabled := true, lastState := none, lastStateAt := none, updatedAt := 0 }

/-- C3 as stated is false on the code: for a device with protocol tag
`gopher`, `poll_device` returns `latency_ms = None` (poller.py line 178),
not a populated latency — while the rest of the branch behaves as
claimed. -/
theorem c3_latency_counterexample :
    (pollDevice c3Device (.urlError "refused") 7).latencyMs = none ∧
    (pollDevice c3Device (.urlError "refused") 7).success = false ∧
    (pollDevice c3Device (.urlError "refused") 7).error =
      some "unsupported_device_protocol:gopher" := by
  refine ⟨rfl, rfl, ?_⟩
  decide

/-- C3 amended: `latency_ms` is non-null in every branch of the
`dvp1-http` client (`_poll_dvp1_http`), success and failure alike; the
branch for any other protocol tag returns `success=false` with error
`unsupported_device_protocol:<tag>` without performing any I/O (its
result does not depend on the HTTP outcome or the elapsed time), but its
`latency_ms` is null — the reconciler substitutes its own measured
elapsed time (see C10). -/
theorem c3_latency_amended :
    (∀ (outcome : HttpOutcome) (elapsedMs : Nat),
      (pollDvp1Http outcome elapsedMs).latencyMs = some elapsedMs) ∧
    (∀ (device : Device) (o1 o2 : HttpOutcome) (e1 e2 : Nat),
      device.protocol ≠ "dvp1-http" →
      pollDevice device o1 e1 = pollDevice device o2 e2 ∧
      (pollDevice device o1 e1).success = false ∧
      (pollDevice device o1 e1).latencyMs = none ∧
      (pollDevice device o1 e1).error =
        some ("unsupported_device_protocol:" ++ device.protocol)) := by
  constructor
  · intro outcome elapsedMs
    cases outcome with
    | httpError c => rfl
    | urlError r => rfl
    | exn k m => rfl
    | ok status body =>
      unfold pollDvp1Http
      dsimp only
      repeat' split
      all_goals rfl
  · intro device o1 o2 e1 e2 h
    unfold pollDevice
    simp only [if_neg h]
    exact ⟨by trivial, by trivial, by trivial, by trivial⟩

/-- Witness for C3's amended theorem at a concrete device and two
different HTTP outcomes. -/
theorem c3_latency_witness :
    pollDevice c3Device (.urlError "a") 1 = pollDevice c3Device (.httpError 500) 2 ∧
    (pollDevice c3Device (.urlError "a") 1).success = false ∧
    (pollDevice c3Device (.urlError "a") 1).latencyMs = none ∧
    (pollDevice c3Device (.urlError "a") 1).error =
      some ("unsupported_device_protocol:" ++ c3Device.protocol) :=
  c3_latency_amended.2 c3Device (.urlError "a") (.httpError 500) 1 2 (by decide)

/-- C10: every call to `poll_and_record` appends exactly one snapshot
row, on success and failure alike, and that row's `latency_ms` is never
null: when the client's `PollResult` carries `latency_ms = None` (as in
the unsupported-device-protocol branch) the reconciler substitutes its
own measured elapsed milliseconds before recording. -/
theorem c10_snapshot_append (db : Db) (device : Device) (res : PollResult)
    (e now : Nat) :
    (pollAndRecord db device res e now).db.snapshots =
      db.snapshots ++
        [{ id := db.nextSnapshotId, deviceId := device.id, observedAt := now,
           success := res.success, httpStatus := res.httpStatus,
           latencyMs := some (match res.latencyMs with | some l => l | none => e),
           error := res.error, protocolVersion := res.protocolVersion,
           mainVersion := res.mainVersion, firmwareVersion := res.firmwareVersion,
           payloadJson := res.payload.map Json.dumps }] ∧
    (pollAndRecord db device res e now).summary.latencyMs =
      (match res.latencyMs with | some l => l | none => e) := by
  unfold pollAndRecord
  dsimp only
  cases hl : res.latencyMs with
  | none =>
    simp only [hl]
    refine ⟨?_, by trivial⟩
    repeat' split
    all_goals
      simp only [createEvent_fst_snapshots, updateDeviceState_snapshots,
        checkCF_snapshots, ensureVCE_snapshots]
    all_goals rfl
  | some l =>
    simp only [hl]
    refine ⟨?_, by trivial⟩
    repeat' split
    all_goals
      simp only [createEvent_fst_snapshots, updateDeviceState_snapshots,
        checkCF_snapshots, ensureVCE_snapshots]
    all_goals rfl

/-- Fixtures for claim C4: a cluster-1 `VX`/`M` device, a baseline
expecting `1.0.0` with no globs, and one store with and one without that
baseline. -/
def c4Device : Device :=
  { id := 1, clusterId := 1, deviceKey := "SN-1", vendor := "VX", model := "M",
    lineNo := none, ip := "10.0.0.1", port := 8080, protocol := "dvp1-http",
    path := "/.well-known/device-version", authType := "none", authToken := none,
    enabled := true, lastState := none, lastStateAt := none, updatedAt := 0 }

def c4Baseline : Baseline :=
  { id := 1, clusterId := 1, vendor := "VX", model := "M",
    expectedMainVersion := "1.0.0", allowedMainGlobs := [] }

def c4Db : Db :=
  { devices := [c4Device], baselines := [c4Baseline], rules := [], snapshots := [],
    events := [], catalog := [], nextSnapshotId := 1, nextEventId := 1 }

def c4DbNoBaseline : Db :=
  { devices := [c4Device], baselines := [], rules := [], snapshots := [],
    events := [], catalog := [], nextSnapshotId := 1, nextEventId := 1 }

def c4ResOk : PollResult :=
  { success := true, httpStatus := some 200, latencyMs := some 3, error := none,
    protocolVersion := some 1, mainVersion := some "1.0.0", firmwareVersion := none,
    payload := none }

def c4ResBad : PollResult :=
  { success := true, httpStatus := some 200, latencyMs := some 3, error := none,
    protocolVersion := some 1, mainVersion := some "2.0.0", firmwareVersion := none,
    payload := none }

def c4ResFail : PollResult :=
  { success := false, httpStatus := none, latencyMs := some 3,
    error := some "url_error:refused", protocolVersion := none, mainVersion := none,
    firmwareVersion := none, payload := none }

/-- Witness for C4 exercising all five rows of the state table at
concrete inputs. -/
theorem c4_state_function_witness :
    computeStateAndMessage c4Db c4Device c4ResFail [] =
      ("offline", "url_error:refused") ∧
    computeStateAndMessage c4DbNoBaseline c4Device c4ResOk [] =
      ("no_baseline", "no_baseline") ∧
    (computeStateAndMessage c4Db c4Device c4ResOk
      [{ path := "/etc/a", old := some "x", new := some "y" }]).1 =
      "files_changed" ∧
    computeStateAndMessage c4Db c4Device c4ResOk [] =
      ("ok", "ok observed=" ++ orEmpty c4ResOk.mainVersion) ∧
    computeStateAndMessage c4Db c4Device c4ResBad [] =
      ("mismatch", "mismatch expected=" ++ c4Baseline.expectedMainVersion ++
        " observed=" ++ orEmpty c4ResBad.mainVersion) :=
  ⟨(c4_state_function c4Db c4Device c4ResFail []).1 "url_error:refused" rfl rfl
      (by decide),
   (c4_state_function c4DbNoBaseline c4Device c4ResOk []).2.1 rfl rfl,
   (c4_state_function c4Db c4Device c4ResOk _).2.2.1 c4Baseline rfl rfl (by decide)
      (by simp),
   (c4_state_function c4Db c4Device c4ResOk []).2.2.2.1 c4Baseline rfl rfl
      (by decide) rfl,
   (c4_state_function c4Db c4Device c4ResBad []).2.2.2.2 c4Baseline rfl rfl
      (by decide)⟩

theorem pollAndRecord_ensuredCatalog (db : Db) (device : Device) (res : PollResult)
    (e now : Nat) :
    (pollAndRecord db device res e now).ensuredCatalog =
      (if res.success && mainTruthy res.mainVersion then
        some (pyStrip device.vendor, pyStrip device.model, orEmpty res.mainVersion)
      else none) := rfl

theorem pollAndRecord_catalog (db : Db) (device : Device) (res : PollResult)
    (e now : Nat) :
    (pollAndRecord db device res e now).db.catalog =
      (if res.success && mainTruthy res.mainVersion then
        (ensureVersionCatalogEntry db (pyStrip device.vendor) (pyStrip device.model)
          (orEmpty res.mainVersion) now).catalog
      else db.catalog) := by
  unfold pollAndRecord
  dsimp only
  cases hcond : (res.success && mainTruthy res.mainVersion) with
  | false =>
    simp only [hcond, Bool.false_eq_true, if_false]
    repeat' split
    all_goals
      simp only [createEvent_fst_catalog, updateDeviceState_catalog, checkCF_catalog]
    all_goals rfl
  | true =>
    simp only [hcond, if_true]
    repeat' split
    all_goals
      simp only [createEvent_fst_catalog, updateDeviceState_catalog, checkCF_catalog]
    all_goals exact ensureVCE_catalog_congr _ _ _ _ _ _ rfl

/-- C7: `ensure_entry` on the version catalog is invoked iff the poll
result has `success=true` and a non-empty `main_version` (the
`ensuredCatalog` trace mirrors exactly the branch that calls
`ensure_version_catalog_entry`); on a failed result the catalog is
untouched.  A response rejected as `unsupported_protocol` is such a
failure — yet its payload is retained and may well contain a
`versions.main` field. -/
theorem c7_catalog_ensure :
    (∀ (db : Db) (device : Device) (res : PollResult) (e now : Nat),
      ((pollAndRecord db device res e now).ensuredCatalog =
        (if res.success && mainTruthy res.mainVersion then
          some (pyStrip device.vendor, pyStrip device.model, orEmpty res.mainVersion)
        else none)) ∧
      (res.success = false →
        (pollAndRecord db device res e now).ensuredCatalog = none ∧
        (pollAndRecord db device res e now).db.catalog = db.catalog)) ∧
    (∀ (kvs : List (List Char × Json)) (e : Nat),
      protocolStr (jsonLookup kvs "protocol".data) ≠ "dvp" →
      (pollDvp1Http (.ok 200 (.objBody kvs)) e).success = false ∧
      (pollDvp1Http (.ok 200 (.objBody kvs)) e).error =
        some "unsupported_protocol" ∧
      (pollDvp1Http (.ok 200 (.objBody kvs)) e).payload = some (.obj kvs)) := by
  constructor
  · intro db device res e now
    refine ⟨pollAndRecord_ensuredCatalog db device res e now, ?_⟩
    intro hfail
    constructor
    · rw [pollAndRecord_ensuredCatalog, hfail]
      rfl
    · rw [pollAndRecord_catalog, hfail]
      rfl
  · intro kvs e h
    unfold pollDvp1Http
    simp [h]

/-- Fixture for C7's witness: a 200 response whose body has a wrong
protocol tag but a `versions.main` field, probed into an empty store. -/
def c7Kvs : List (List Char × Json) :=
  [("protocol".data, .str "xyz".data), ("protocol_version".data, .int 1),
   ("versions".data, .obj [("main".data, .str "9.9.9".data)])]

def c7Db : Db :=
  { devices := [], baselines := [], rules := [], snapshots := [], events := [],
    catalog := [], nextSnapshotId := 1, nextEventId := 1 }

/-- Witness for C7: the concrete unsupported-protocol response keeps its
payload, fails, and leaves the catalog empty. -/
theorem c7_catalog_ensure_witness :
    ((pollDvp1Http (.ok 200 (.objBody c7Kvs)) 3).success = false ∧
      (pollDvp1Http (.ok 200 (.objBody c7Kvs)) 3).error =
        some "unsupported_protocol" ∧
      (pollDvp1Http (.ok 200 (.objBody c7Kvs)) 3).payload = some (.obj c7Kvs)) ∧
    (pollAndRecord c7Db c3Device
      (pollDvp1Http (.ok 200 (.objBody c7Kvs)) 3) 3 9).ensuredCatalog = none ∧
    (pollAndRecord c7Db c3Device
      (pollDvp1Http (.ok 200 (.objBody c7Kvs)) 3) 3 9).db.catalog =
      c7Db.catalog := by
  have h2 := c7_catalog_ensure.2 c7Kvs 3 (by decide)
  have h1 := (c7_catalog_ensure.1 c7Db c3Device
    (pollDvp1Http (.ok 200 (.objBody c7Kvs)) 3) 3 9).2 h2.1
  exact ⟨h2, h1.1, h1.2⟩

theorem pickLatest_append_last (l : List Snapshot) (s : Snapshot)
    (h : ∀ t ∈ l, snapLater s t = true) : pickLatest (l ++ [s]) = some s := by
  induction l with
  | nil => rfl
  | cons t l ih =>
    have ht := h t (by simp)
    simp only [List.cons_append, pickLatest, List.append_eq,
      ih (fun u hu => h u (by simp [hu])), ht, if_true]

theorem dumps_not_isEmpty (j : Json) : (Json.dumps j).isEmpty = false := by
  obtain ⟨c, t, hct, -, -⟩ := dumps_head j
  simp [hct]

/-- C9: recording a snapshot with payload `P` and then reading
`get_latest_snapshot(device).payload` deserialises to exactly `P` — the
round trip through the stored `payload_json` column.  The hypotheses say
the store's clock is monotone (no existing snapshot is dated after `now`)
and the auto-increment counter exceeds every stored id, both invariants
of the sqlite store. -/
theorem c9_payload_round_trip (db : Db) (device : Device) (success : Bool)
    (httpStatus latencyMs : Option Nat) (error : Option String)
    (protocolVersion : Option Int) (mainVersion firmwareVersion : Option String)
    (kvs : List (List Char × Json)) (now : Nat)
    (hobs : ∀ s ∈ db.snapshots, s.observedAt ≤ now)
    (hid : ∀ s ∈ db.snapshots, s.id < db.nextSnapshotId) :
    (getLatestSnapshot
      (recordSnapshot db device.id success httpStatus latencyMs error
        protocolVersion mainVersion firmwareVersion (some (.obj kvs)) now).1
      device.id).map (fun sv => sv.payload) = some (some (.obj kvs)) := by
  unfold getLatestSnapshot recordSnapshot
  dsimp only
  rw [List.filter_append]
  have hnewkeep : List.filter (fun s : Snapshot => s.deviceId = device.id)
      [{ id := db.nextSnapshotId, deviceId := device.id, observedAt := now,
         success := success, httpStatus := httpStatus, latencyMs := latencyMs,
         error := error, protocolVersion := protocolVersion,
         mainVersion := mainVersion, firmwareVersion := firmwareVersion,
         payloadJson := some (Json.dumps (.obj kvs)) }] =
      [{ id := db.nextSnapshotId, deviceId := device.id, observedAt := now,
         success := success, httpStatus := httpStatus, latencyMs := latencyMs,
         error := error, protocolVersion := protocolVersion,
         mainVersion := mainVersion, firmwareVersion := firmwareVersion,
         payloadJson := some (Json.dumps (.obj kvs)) }] := by
    simp
  rw [show (Option.map Json.dumps (some (Json.obj kvs))) =
    some (Json.dumps (.obj kvs)) from rfl, hnewkeep]
  rw [pickLatest_append_last _ _ (fun t htmem => by
    have htdb := List.mem_filter.mp htmem
    have h1 := hobs t htdb.1
    have h2 := hid t htdb.1
    simp only [snapLater]
    simp only [Bool.or_eq_true, decide_eq_true_eq, Bool.and_eq_true]
    omega)]
  have hpay : snapshotPayload
      { id := db.nextSnapshotId, deviceId := device.id, observedAt := now,
        success := success, httpStatus := httpStatus, latencyMs := latencyMs,
        error := error, protocolVersion := protocolVersion,
        mainVersion := mainVersion, firmwareVersion := firmwareVersion,
        payloadJson := some (Json.dumps (.obj kvs)) } = some (.obj kvs) := by
    unfold snapshotPayload
    dsimp only
    rw [dumps_not_isEmpty, Json.loads_dumps]
    rfl
  simp only [Option.map, hpay]

/-- Fixtures for C9's witness. -/
def c9Device : Device :=
  { id := 1, clusterId := 1, deviceKey := "SN-1", vendor := "VX", model := "M",
    lineNo := none, ip := "10.0.0.1", port := 8080, protocol := "dvp1-http",
    path := "/.well-known/device-version", authType := "none", authToken := none,
    enabled := true, lastState := none, lastStateAt := none, updatedAt := 0 }

def c9Db : Db :=
  { devices := [c9Device], baselines := [], rules := [], snapshots := [],
    events := [], catalog := [], nextSnapshotId := 1, nextEventId := 1 }

def c9Kvs : List (List Char × Json) :=
  [("versions".data, .obj [("main".data, .str "1.0.0".data)]),
   ("files".data, .arr [.obj [("path".data, .str "/etc/app/config.yml".data),
     ("checksum".data, .str "sha256:aaa".data)]])]

/-- Witness for C9 at a concrete empty store and a concrete payload. -/
theorem c9_payload_round_trip_witness :
    (∀ s ∈ c9Db.snapshots, s.observedAt ≤ 5) ∧
    (∀ s ∈ c9Db.snapshots, s.id < c9Db.nextSnapshotId) ∧
    (getLatestSnapshot
      (recordSnapshot c9Db c9Device.id true (some 200) (some 3) none (some 1)
        (some "1.0.0") none (some (.obj c9Kvs)) 5).1
      c9Device.id).map (fun sv => sv.payload) = some (some (.obj c9Kvs)) :=
  ⟨by simp [c9Db], by simp [c9Db],
   c9_payload_round_trip c9Db c9Device true (some 200) (some 3) none (some 1)
     (some "1.0.0") none c9Kvs 5 (by simp [c9Db]) (by simp [c9Db])⟩

/-- Fixtures for claim C2: a device whose last reconcile detected a
controlled-file change (`last_state = "files_changed"`, an unacknowledged
`controlled_files_change` event on record), whose latest snapshot is
successful and whose observed version the baseline allows. -/
def c2Device : Device :=
  { id := 1, clusterId := 1, deviceKey := "SN-1", vendor := "VX", model := "M",
    lineNo := none, ip := "10.0.0.1", port := 8080, protocol := "dvp1-http",
    path := "/.well-known/device-version", authType := "none", authToken := none,
    enabled := true, lastState := some "files_changed", lastStateAt := some 50,
    updatedAt := 50 }

def c2Baseline : Baseline :=
  { id := 1, clusterId := 1, vendor := "VX", model := "M",
    expectedMainVersion := "1.0.0", allowedMainGlobs := [] }

def c2Rule : ControlledFileRule :=
  { id := 1, clusterId := 1, vendor := "VX", model := "M",
    paths := ["/etc/app/config.yml"], mode := some "auto", maxBytes := some 8192 }

def c2Snapshot : Snapshot :=
  { id := 1, deviceId := 1, observedAt := 50, success := true,
    httpStatus := some 200, latencyMs := some 3, error := none,
    protocolVersion := some 1, mainVersion := some "1.0.0",
    firmwareVersion := none, payloadJson := none }

def c2Event : Event :=
  { id := 1, deviceId := 1, createdAt := 50,
    eventType := "controlled_files_change", oldState := none, newState := none,
    message := some "受控文件变更: /etc/app/config.yml",
    payload := some (.controlledFilesChange 1 "SN-1" "VX" "M" 1 (some 1)
      ["/etc/app/config.yml"] "auto" 8192
      [{ path := "/etc/app/config.yml", old := some "sha256:aaa",
         new := some "sha256:bbb" }] (some 0) 1) }

def c2Db : Db :=
  { devices := [c2Device], baselines := [c2Baseline], rules := [c2Rule],
    snapshots := [c2Snapshot], events := [c2Event], catalog := [],
    nextSnapshotId := 2, nextEventId := 2 }

/-- C2 is right about the intended behaviour but the code does not
implement it: `db.list_status` builds rows holding only `{device,
baseline, latest_snapshot, state}` (the `StatusRow` type of this
embedding mirrors those keys — there is no `controlled_files_change`
field to populate), and it recomputes `state` from the latest snapshot
and baseline alone.  For this store — which has an unacknowledged
`controlled_files_change` event and even `last_state = "files_changed"`
on the device row — the aggregated view reports plain `"ok"` and
surfaces nothing about the change, contradicting the spec's sticky rule
and the server's own dashboard script, which reads
`row.controlled_files_change` from this endpoint. -/
theorem c2_status_sticky_code_bug :
    ((listStatus c2Db).map (fun r => r.state)) = ["ok"] ∧
    (c2Db.events.filter
      (fun e => e.eventType = "controlled_files_change")).length = 1 ∧
    (c2Db.events.filter
      (fun e => e.eventType = "controlled_files_ack")).length = 0 ∧
    c2Db.devices.map (fun d => d.lastState) = [some "files_changed"] := by
  refine ⟨?_, by decide, by decide, by decide⟩
  rfl

theorem getVCI_congr (d1 d2 : Db) (v m mv : String) (h : d1.catalog = d2.catalog) :
    getVersionCatalogItem d1 v m mv = getVersionCatalogItem d2 v m mv := by
  simp [getVersionCatalogItem, h]

theorem checkCF_events_filter (db : Db) (device : Device) (res : PollResult)
    (prev : Option SnapshotView) (sid now : Nat) (p : Event → Bool)
    (hp : ∀ e, e.eventType = "controlled_files_change" → p e = false) :
    ((checkControlledFiles db device res prev sid now).1.events).filter p =
      db.events.filter p := by
  obtain ⟨suffix, hsfx, hall⟩ :=
    (checkCF_frame db device res prev sid now).2.2.2.2.2
  rw [hsfx, filter_append_none p _ _ (fun e he => hp e (hall e he))]

theorem stage_state_events (d : Db) (i : Nat) (st : String) (old : Option String)
    (msg : String) (pl : EventPayload) (now : Nat) (p : Event → Bool)
    (hp : ∀ e, e.eventType = "state_change" → p e = false) :
    List.filter p (if old ≠ some st then
        (createEvent (updateDeviceState d i st now) i "state_change" old (some st)
          (some msg) (some pl) now).1
      else updateDeviceState d i st now).events = List.filter p d.events := by
  split
  · rw [createEvent_fst_events]
    rw [filter_append_none p _ _ (fun ev hev => by
      rw [List.mem_singleton] at hev
      subst hev
      exact hp _ rfl)]
    rw [updateDeviceState_events]
  · rw [updateDeviceState_events]

theorem ensure_if_events (d : Db) (cond : Bool) (v m mv : String) (now : Nat) :
    (if cond = true then ensureVersionCatalogEntry d v m mv now else d).events =
      d.events := by
  split
  · rw [ensureVCE_events]
  · rfl

theorem filter_append_one (p : Event → Bool) (l : List Event) (a : Event)
    (h : p a = true) : (l ++ [a]).filter p = l.filter p ++ [a] := by
  rw [List.filter_append]
  simp [List.filter, h]

/-- C6: on every reconcile whose poll succeeds with a non-empty
`main_version` different from the `main_version` of the latest previous
successful snapshot, exactly one version event is emitted —
`version_observed` when there was no previous successful main version,
otherwise `version_change` — and its payload carries the version-catalog
lookup for the new version; when the poll fails, reports no version, or
the version is unchanged, no version event is emitted. -/
theorem c6_version_events (db : Db) (device : Device) (res : PollResult)
    (e now : Nat) :
    ((res.success && mainTruthy res.mainVersion) = false →
      versionEvents (pollAndRecord db device res e now).db.events =
        versionEvents db.events) ∧
    ((res.success && mainTruthy res.mainVersion) = true →
      ((getLatestSuccessSnapshot db device.id).bind (fun sv => sv.snap.mainVersion) =
          some (orEmpty res.mainVersion) →
        versionEvents (pollAndRecord db device res e now).db.events =
          versionEvents db.events) ∧
      ((getLatestSuccessSnapshot db device.id).bind (fun sv => sv.snap.mainVersion) ≠
          some (orEmpty res.mainVersion) →
        ∃ ev, versionEvents (pollAndRecord db device res e now).db.events =
            versionEvents db.events ++ [ev] ∧
          ev.eventType =
            (if (getLatestSuccessSnapshot db device.id).bind
                (fun sv => sv.snap.mainVersion) = none
             then "version_observed" else "version_change") ∧
          ev.oldState =
            (getLatestSuccessSnapshot db device.id).bind
              (fun sv => sv.snap.mainVersion) ∧
          ev.newState = some (orEmpty res.mainVersion) ∧
          ev.payload = some (.versionEvent device.id device.deviceKey device.vendor
            device.model
            ((getLatestSuccessSnapshot db device.id).bind
              (fun sv => sv.snap.mainVersion))
            (orEmpty res.mainVersion)
            (getVersionCatalogItem (pollAndRecord db device res e now).db
              (pyStrip device.vendor) (pyStrip device.model)
              (orEmpty res.mainVersion))))) := by
  have hbind : (match getLatestSuccessSnapshot db device.id with
      | some sv => sv.snap.mainVersion
      | none => none) =
      (getLatestSuccessSnapshot db device.id).bind
        (fun sv => sv.snap.mainVersion) := by
    cases getLatestSuccessSnapshot db device.id <;> rfl
  have hvp : ∀ ev : Event, ev.eventType = "state_change" → isVersionEvent ev = false := by
    intro ev hev
    simp [isVersionEvent, hev]
  have hvc : ∀ ev : Event, ev.eventType = "controlled_files_change" →
      isVersionEvent ev = false := by
    intro ev hev
    simp [isVersionEvent, hev]
  constructor
  · intro hcond
    unfold pollAndRecord
    dsimp only
    simp only [hcond, Bool.false_eq_true, if_false]
    simp only [versionEvents]
    rw [stage_state_events _ _ _ _ _ _ _ _ hvp]
    rw [checkCF_events_filter _ _ _ _ _ _ _ hvc]
    rw [recordSnapshot_fst_events]
  · intro hcond
    constructor
    · intro hsame
      unfold pollAndRecord
      dsimp only
      simp only [hcond, if_true]
      rw [hbind, hsame]
      simp only [ne_eq, not_true_eq_false, if_false, reduceCtorEq]
      simp only [versionEvents]
      rw [stage_state_events _ _ _ _ _ _ _ _ hvp]
      rw [checkCF_events_filter _ _ _ _ _ _ _ hvc]
      rw [ensureVCE_events]
      rw [recordSnapshot_fst_events]
    · intro hdiff
      unfold pollAndRecord
      dsimp only
      simp only [hcond, if_true]
      rw [hbind]
      rw [if_pos hdiff]
      simp only [versionEvents]
      rw [createEvent_fst_events, filter_append_one,
        stage_state_events _ _ _ _ _ _ _ _ hvp,
        checkCF_events_filter _ _ _ _ _ _ _ hvc,
        ensureVCE_events, recordSnapshot_fst_events]
      · refine ⟨_, rfl, rfl, rfl, rfl, ?_⟩
        refine congrArg some (congrArg _ ?_)
        refine getVCI_congr _ _ _ _ _ ?_
        exact (createEvent_fst_catalog _ _ _ _ _ _ _ _).symm
      · simp only [isVersionEvent]
        split <;> decide

def c6Device : Device :=
  { id := 1, clusterId := 1, deviceKey := "SN-6", vendor := "VX", model := "M",
    lineNo := none, ip := "10.0.0.6", port := 8080, protocol := "dvp1-http",
    path := "/.well-known/device-version", authType := "none", authToken := none,
    enabled := true, lastState := some "ok", lastStateAt := some 10, updatedAt := 10 }

def c6Snap : Snapshot :=
  { id := 1, deviceId := 1, observedAt := 10, success := true,
    httpStatus := some 200, latencyMs := some 3, error := none,
    protocolVersion := some 1, mainVersion := some "1.0.0", firmwareVersion := none,
    payloadJson := none }

def c6Db : Db :=
  { devices := [c6Device], baselines := [], rules := [], snapshots := [c6Snap],
    events := [], catalog := [], nextSnapshotId := 2, nextEventId := 1 }

def c6Res : PollResult :=
  { success := true, httpStatus := some 200, latencyMs := some 4, error := none,
    protocolVersion := some 1, mainVersion := some "2.0.0", firmwareVersion := none,
    payload := none }

/-- Witness for C6 at a concrete store: a successful poll reporting
`2.0.0` after a previous successful snapshot with `1.0.0` emits exactly
one `version_change` event. -/
theorem c6_version_events_witness :
    (c6Res.success && mainTruthy c6Res.mainVersion) = true ∧
    (getLatestSuccessSnapshot c6Db c6Device.id).bind (fun sv => sv.snap.mainVersion) ≠
      some (orEmpty c6Res.mainVersion) ∧
    ∃ ev, versionEvents (pollAndRecord c6Db c6Device c6Res 5 100).db.events =
        versionEvents c6Db.events ++ [ev] ∧
      ev.eventType =
        (if (getLatestSuccessSnapshot c6Db c6Device.id).bind
            (fun sv => sv.snap.mainVersion) = none
         then "version_observed" else "version_change") ∧
      ev.oldState =
        (getLatestSuccessSnapshot c6Db c6Device.id).bind
          (fun sv => sv.snap.mainVersion) ∧
      ev.newState = some (orEmpty c6Res.mainVersion) ∧
      ev.payload = some (.versionEvent c6Device.id c6Device.deviceKey
        c6Device.vendor c6Device.model
        ((getLatestSuccessSnapshot c6Db c6Device.id).bind
          (fun sv => sv.snap.mainVersion))
        (orEmpty c6Res.mainVersion)
        (getVersionCatalogItem (pollAndRecord c6Db c6Device c6Res 5 100).db
          (pyStrip c6Device.vendor) (pyStrip c6Device.model)
          (orEmpty c6Res.mainVersion))) :=
  ⟨by decide, by decide,
    ((c6_version_events c6Db c6Device c6Res 5 100).2 (by decide)).2 (by decide)⟩

/-- Snapshot-recording step of `poll_and_record` (its `db1` and the new
snapshot id), with the latency substitution applied. -/
def reconDb1 (db : Db) (device : Device) (res : PollResult) (e now : Nat) :
    Db × Nat :=
  recordSnapshot db device.id res.success res.httpStatus
    (some (match res.latencyMs with | some l => l | none => e))
    res.error res.protocolVersion res.mainVersion res.firmwareVersion res.payload now

/-- Catalog-ensuring step of `poll_and_record` (its `db2`). -/
def reconDb2 (db : Db) (device : Device) (res : PollResult) (e now : Nat) : Db :=
  if res.success && mainTruthy res.mainVersion then
    ensureVersionCatalogEntry (reconDb1 db device res e now).1 (pyStrip device.vendor)
      (pyStrip device.model) (orEmpty res.mainVersion) now
  else (reconDb1 db device res e now).1

/-- Controlled-file check step of `poll_and_record` (its `db3` and the
change list). -/
def reconChk (db : Db) (device : Device) (res : PollResult) (e now : Nat) :
    Db × List FileChange :=
  checkControlledFiles (reconDb2 db device res e now) device res
    (getLatestSuccessSnapshot db device.id) (reconDb1 db device res e now).2 now

/-- The state `poll_and_record` computes for the device on this reconcile. -/
def reconNewState (db : Db) (device : Device) (res : PollResult) (e now : Nat) :
    String :=
  (computeStateAndMessage (reconChk db device res e now).1 device res
    (reconChk db device res e now).2).1

/-- The controlled-file change list `poll_and_record` computes on this
reconcile. -/
def reconChanges (db : Db) (device : Device) (res : PollResult) (e now : Nat) :
    List FileChange :=
  (reconChk db device res e now).2

theorem updateDeviceState_devices (db : Db) (i : Nat) (s : String) (n : Nat) :
    (updateDeviceState db i s n).devices = db.devices.map (fun d =>
      if d.id = i then
        { d with lastState := some s, lastStateAt := some n, updatedAt := n }
      else d) := rfl

theorem stage_version_events (d : Db) (device : Device) (cond : Bool)
    (pm : Option String) (nm : String) (now : Nat) (p : Event → Bool)
    (hvo : ∀ e, e.eventType = "version_observed" → p e = false)
    (hvc : ∀ e, e.eventType = "version_change" → p e = false) :
    List.filter p (if cond = true then
        (if pm ≠ some nm then
          (createEvent d device.id
            (if pm = none then "version_observed" else "version_change")
            pm (some nm)
            (some (versionEventMessage
              (if pm = none then "version_observed" else "version_change") pm nm))
            (some (.versionEvent device.id device.deviceKey device.vendor
              device.model pm nm
              (getVersionCatalogItem d (pyStrip device.vendor)
                (pyStrip device.model) nm))) now).1
        else d)
      else d).events = List.filter p d.events := by
  split
  · split
    · rw [createEvent_fst_events]
      rw [filter_append_none p _ _ (fun ev hev => by
        rw [List.mem_singleton] at hev
        subst hev
        by_cases hn : pm = none
        · rw [if_pos hn] at *
          exact hvo _ rfl
        · rw [if_neg hn] at *
          exact hvc _ rfl)]
    · rfl
  · rfl

theorem stage_state_events_append (d : Db) (i : Nat) (st : String)
    (old : Option String) (msg : String) (pl : EventPayload) (now : Nat)
    (p : Event → Bool) (hold : old ≠ some st)
    (hp : p { id := d.nextEventId, deviceId := i, createdAt := now,
              eventType := "state_change", oldState := old, newState := some st,
              message := some msg, payload := some pl } = true) :
    List.filter p (if old ≠ some st then
        (createEvent (updateDeviceState d i st now) i "state_change" old (some st)
          (some msg) (some pl) now).1
      else updateDeviceState d i st now).events =
      List.filter p d.events ++
        [{ id := d.nextEventId, deviceId := i, createdAt := now,
           eventType := "state_change", oldState := old, newState := some st,
           message := some msg, payload := some pl }] := by
  rw [if_pos hold, createEvent_fst_events]
  rw [show (updateDeviceState d i st now).nextEventId = d.nextEventId from rfl]
  rw [filter_append_one p _ _ hp]
  rw [updateDeviceState_events]

/-- C8 (amended): `update_device_state` is called unconditionally, so the
device row's `last_state`, `last_state_at` and `updated_at` are rewritten
on every reconcile with the computed state and the current time; a
`state_change` event with `\x7bold, new, message\x7d` and the
device/result payload is emitted exactly when the computed state differs
from the previous `last_state`. -/
theorem c8_state_write_amended (db : Db) (device : Device) (res : PollResult)
    (e now : Nat) :
    (pollAndRecord db device res e now).db.devices =
      db.devices.map (fun d =>
        if d.id = device.id then
          { d with lastState := some (reconNewState db device res e now),
                   lastStateAt := some now, updatedAt := now }
        else d) ∧
    (device.lastState ≠ some (reconNewState db device res e now) →
      ∃ ev,
        stateChangeEvents (pollAndRecord db device res e now).db.events =
          stateChangeEvents db.events ++ [ev] ∧
        ev.eventType = "state_change" ∧
        ev.oldState = device.lastState ∧
        ev.newState = some (reconNewState db device res e now) ∧
        ev.payload = some (.stateChange device.id device.deviceKey device.vendor
          device.model device.ip device.port res.mainVersion res.httpStatus
          res.error (reconChanges db device res e now).length)) ∧
    (device.lastState = some (reconNewState db device res e now) →
      stateChangeEvents (pollAndRecord db device res e now).db.events =
        stateChangeEvents db.events) := by
  have hvo : ∀ ev : Event, ev.eventType = "version_observed" →
      decide (ev.eventType = "state_change") = false := by
    intro ev hev
    rw [hev]
    rfl
  have hvc : ∀ ev : Event, ev.eventType = "version_change" →
      decide (ev.eventType = "state_change") = false := by
    intro ev hev
    rw [hev]
    rfl
  have hcfc : ∀ ev : Event, ev.eventType = "controlled_files_change" →
      decide (ev.eventType = "state_change") = false := by
    intro ev hev
    rw [hev]
    rfl
  refine ⟨?_, ?_, ?_⟩
  · unfold pollAndRecord reconNewState reconChk reconDb2 reconDb1
    dsimp only
    cases hl : res.latencyMs <;> simp only [hl] <;> repeat' split
    all_goals simp only [createEvent_fst_devices, updateDeviceState_devices,
      checkCF_devices, ensureVCE_devices, recordSnapshot_fst_devices]
  · intro hne
    unfold reconNewState reconChk reconDb2 reconDb1 at hne
    unfold pollAndRecord reconChanges reconChk reconDb2 reconDb1
    dsimp only
    simp only [stateChangeEvents]
    rw [stage_version_events _ _ _ _ _ _ _ hvo hvc]
    rw [stage_state_events_append _ _ _ _ _ _ _ _ hne (by rfl)]
    rw [checkCF_events_filter _ _ _ _ _ _ _ hcfc]
    rw [ensure_if_events]
    rw [recordSnapshot_fst_events]
    refine ⟨_, rfl, rfl, rfl, rfl, rfl⟩
  · intro heq
    unfold reconNewState reconChk reconDb2 reconDb1 at heq
    unfold pollAndRecord
    dsimp only
    simp only [stateChangeEvents]
    rw [stage_version_events _ _ _ _ _ _ _ hvo hvc]
    rw [if_neg (fun hcon => hcon heq)]
    rw [updateDeviceState_events]
    rw [checkCF_events_filter _ _ _ _ _ _ _ hcfc]
    rw [ensure_if_events]
    rw [recordSnapshot_fst_events]

def c8Device : Device :=
  { id := 1, clusterId := 1, deviceKey := "SN-8", vendor := "VX", model := "M",
    lineNo := none, ip := "10.0.0.8", port := 8080, protocol := "dvp1-http",
    path := "/.well-known/device-version", authType := "none", authToken := none,
    enabled := true, lastState := some "ok", lastStateAt := some 50, updatedAt := 50 }

def c8Baseline : Baseline :=
  { id := 1, clusterId := 1, vendor := "VX", model := "M",
    expectedMainVersion := "1.0.0", allowedMainGlobs := [] }

def c8Db : Db :=
  { devices := [c8Device], baselines := [c8Baseline], rules := [], snapshots := [],
    events := [], catalog := [], nextSnapshotId := 1, nextEventId := 1 }

def c8Res : PollResult :=
  { success := true, httpStatus := some 200, latencyMs := some 3, error := none,
    protocolVersion := some 1, mainVersion := some "1.0.0", firmwareVersion := none,
    payload := none }

def c8ResBad : PollResult :=
  { success := true, httpStatus := some 200, latencyMs := some 3, error := none,
    protocolVersion := some 1, mainVersion := some "2.0.0", firmwareVersion := none,
    payload := none }

/-- The device row as it stands after the counterexample reconcile. -/
def c8DeviceAfter : Device :=
  { c8Device with
    lastState := some "ok"
    lastStateAt := some 100
    updatedAt := 100 }

/-- Counterexample to C8 as stated: on a reconcile whose computed state
`ok` equals the device's previous `last_state`, the device row is still
rewritten — `last_state_at` moves from 50 to the current time 100 — even
though no `state_change` event is emitted, so `last_state`/`last_state_at`
are not written only on state changes. -/
theorem c8_state_write_counterexample :
    c8Device.lastState = some "ok" ∧
    c8Device.lastStateAt = some 50 ∧
    reconNewState c8Db c8Device c8Res 5 100 = "ok" ∧
    (pollAndRecord c8Db c8Device c8Res 5 100).db.devices = [c8DeviceAfter] ∧
    stateChangeEvents (pollAndRecord c8Db c8Device c8Res 5 100).db.events = [] :=
  ⟨rfl, rfl, rfl, rfl, rfl⟩

/-- Witness for the amended C8 at concrete inputs: an unchanged state
emits no `state_change` event, and a changed state (a `mismatch` after
`ok`) emits exactly one with the prescribed payload. -/
theorem c8_state_write_witness :
    (c8Device.lastState = some (reconNewState c8Db c8Device c8Res 5 100) ∧
      stateChangeEvents (pollAndRecord c8Db c8Device c8Res 5 100).db.events =
        stateChangeEvents c8Db.events) ∧
    (c8Device.lastState ≠ some (reconNewState c8Db c8Device c8ResBad 5 100) ∧
      ∃ ev,
        stateChangeEvents (pollAndRecord c8Db c8Device c8ResBad 5 100).db.events =
          stateChangeEvents c8Db.events ++ [ev] ∧
        ev.eventType = "state_change" ∧
        ev.oldState = c8Device.lastState ∧
        ev.newState = some (reconNewState c8Db c8Device c8ResBad 5 100) ∧
        ev.payload = some (.stateChange c8Device.id c8Device.deviceKey
          c8Device.vendor c8Device.model c8Device.ip c8Device.port
          c8ResBad.mainVersion c8ResBad.httpStatus c8ResBad.error
          (reconChanges c8Db c8Device c8ResBad 5 100).length)) :=
  ⟨⟨by decide, (c8_state_write_amended c8Db c8Device c8Res 5 100).2.2 (by decide)⟩,
   ⟨by decide, (c8_state_write_amended c8Db c8Device c8ResBad 5 100).2.1 (by decide)⟩⟩

theorem isEmpty_true_eq_nil {α : Type} (l : List α) (h : l.isEmpty = true) :
    l = [] := by
  cases l
  · rfl
  · simp [List.isEmpty] at h

/-- The previous payload `_check_controlled_files` reads from the previous
successful snapshot. -/
def cfPrevPayload (prev : Option SnapshotView) : Option Json :=
  match prev with
  | some sv => sv.payload
  | none => none

/-- The current selection of rule-matched reported files. -/
def cfCurrSel (res : PollResult) (rule : ControlledFileRule) :
    List (String × String) :=
  selectControlledFiles (extractReportedFileEntries res.payload).1 rule.paths

/-- The previous selection of rule-matched reported files (when the
previous payload reported a `files` array). -/
def cfPrevSelSup (prev : Option SnapshotView) (rule : ControlledFileRule) :
    List (String × String) :=
  selectControlledFiles (extractReportedFileEntries (cfPrevPayload prev)).1 rule.paths

/-- The change list `_check_controlled_files` computes (under a supported
previous payload). -/
def cfChanges (res : PollResult) (prev : Option SnapshotView)
    (rule : ControlledFileRule) : List FileChange :=
  computeFileChanges (cfPrevSelSup prev rule) (cfCurrSel res rule)

/-- The changed paths that go into the event message. -/
def cfPathsChanged (changes : List FileChange) : List String :=
  (changes.map (fun c => c.path)).filter (fun p => !(pyStrip p).isEmpty)

/-- C1 (amended): under a controlled-file rule with at least one glob, a
successful poll reporting a `files` array, a previous successful snapshot
that also reported one, and a non-empty fingerprint diff, the check
returns the full `\x7bpath, old, new\x7d` change list and appends exactly
one `controlled_files_change` event carrying it; the device's state is
`files_changed` provided a baseline exists and allows the observed
version — not unconditionally, as the mismatch and no-baseline branches
take precedence in `_compute_state_and_message`. -/
theorem c1_files_changed_amended (db : Db) (device : Device) (res : PollResult)
    (prev : Option SnapshotView) (sid now : Nat) (rule : ControlledFileRule)
    (hs : res.success = true)
    (hrule : getControlledFileRule db device.clusterId device.vendor device.model =
      some rule)
    (hpat : rule.paths.isEmpty = false)
    (hsup : (extractReportedFileEntries res.payload).2 = true)
    (hprevSup : (extractReportedFileEntries (cfPrevPayload prev)).2 = true)
    (hch : (cfChanges res prev rule).isEmpty = false) :
    (checkControlledFiles db device res prev sid now).2 = cfChanges res prev rule ∧
    (checkControlledFiles db device res prev sid now).1.events = db.events ++
      [{ id := db.nextEventId, deviceId := device.id, createdAt := now,
         eventType := "controlled_files_change", oldState := none, newState := none,
         message := some (cfcMessage (cfPathsChanged (cfChanges res prev rule))),
         payload := some (.controlledFilesChange device.id device.deviceKey
           device.vendor device.model device.clusterId (some rule.id) rule.paths
           (normalizeMode rule.mode) (normalizeMaxBytes rule.maxBytes)
           (cfChanges res prev rule) (prev.map (fun sv => sv.snap.id)) sid) }] ∧
    (∀ (d2 : Db) (b : Baseline),
      getBaseline d2 device.clusterId device.vendor device.model = some b →
      baselineAllows b (orEmpty res.mainVersion) = true →
      (computeStateAndMessage d2 device res (cfChanges res prev rule)).1 =
        "files_changed") := by
  have hguard : ((cfCurrSel res rule).isEmpty &&
      (cfPrevSelSup prev rule).isEmpty) = false := by
    cases hcu : (cfCurrSel res rule).isEmpty
    · rfl
    · cases hpv : (cfPrevSelSup prev rule).isEmpty
      · rfl
      · exfalso
        have h1 := isEmpty_true_eq_nil _ hcu
        have h2 := isEmpty_true_eq_nil _ hpv
        have hch2 := hch
        unfold cfChanges at hch2
        rw [h1, h2] at hch2
        exact absurd hch2 (by decide)
  have key : checkControlledFiles db device res prev sid now =
      ((createEvent db device.id "controlled_files_change" none none
        (some (cfcMessage (cfPathsChanged (cfChanges res prev rule))))
        (some (.controlledFilesChange device.id device.deviceKey device.vendor
          device.model device.clusterId (some rule.id) rule.paths
          (normalizeMode rule.mode) (normalizeMaxBytes rule.maxBytes)
          (cfChanges res prev rule) (prev.map (fun sv => sv.snap.id)) sid)) now).1,
        cfChanges res prev rule) := by
    have hprevSup2 := hprevSup
    unfold cfPrevPayload at hprevSup2
    have hguard2 := hguard
    unfold cfCurrSel cfPrevSelSup cfPrevPayload at hguard2
    have hch2 := hch
    unfold cfChanges cfPrevSelSup cfCurrSel cfPrevPayload at hch2
    unfold checkControlledFiles
    simp only [hs, Bool.not_true, Bool.false_eq_true, if_false]
    simp only [hrule]
    simp only [hpat, Bool.false_eq_true, if_false]
    simp only [hsup, hprevSup2, Bool.not_true, Bool.false_eq_true, if_true, if_false]
    simp only [hguard2, Bool.false_eq_true, if_false]
    simp only [hch2, Bool.false_eq_true, if_false]
    rfl
  refine ⟨?_, ?_, ?_⟩
  · rw [key]
  · rw [key, createEvent_fst_events]
  · intro d2 b hb hal
    unfold computeStateAndMessage
    simp only [hs, Bool.not_true, Bool.false_eq_true, if_false]
    simp only [hb]
    simp only [hal, if_true]
    simp only [hch, Bool.not_false, if_true]

/-- A device payload reporting one controlled file with the given
checksum. -/
def c1FilesJson (fp : String) : Json :=
  .obj [("files".data, .arr [ .obj
    [("path".data, .str "/etc/app.conf".data),
     ("checksum".data, .str fp.data)] ])]

def c1Device : Device :=
  { id := 1, clusterId := 1, deviceKey := "SN-1C", vendor := "VX", model := "M",
    lineNo := none, ip := "10.0.0.11", port := 8080, protocol := "dvp1-http",
    path := "/.well-known/device-version", authType := "none", authToken := none,
    enabled := true, lastState := some "ok", lastStateAt := some 10, updatedAt := 10 }

def c1Rule : ControlledFileRule :=
  { id := 1, clusterId := 1, vendor := "VX", model := "M",
    paths := ["/etc/*"], mode := none, maxBytes := none }

def c1Baseline : Baseline :=
  { id := 1, clusterId := 1, vendor := "VX", model := "M",
    expectedMainVersion := "1.0.0", allowedMainGlobs := [] }

def c1Snap : Snapshot :=
  { id := 1, deviceId := 1, observedAt := 10, success := true,
    httpStatus := some 200, latencyMs := some 3, error := none,
    protocolVersion := some 1, mainVersion := some "1.0.0",
    firmwareVersion := none, payloadJson := some (Json.dumps (c1FilesJson "aaa")) }

def c1Db : Db :=
  { devices := [c1Device], baselines := [c1Baseline], rules := [c1Rule],
    snapshots := [c1Snap], events := [], catalog := [], nextSnapshotId := 2,
    nextEventId := 1 }

def c1Res : PollResult :=
  { success := true, httpStatus := some 200, latencyMs := some 4, error := none,
    protocolVersion := some 1, mainVersion := some "2.0.0",
    firmwareVersion := none, payload := some (c1FilesJson "bbb") }

/-- The device row after the counterexample reconcile. -/
def c1DeviceAfter : Device :=
  { c1Device with
    lastState := some "mismatch"
    lastStateAt := some 100
    updatedAt := 100 }

/-- Counterexample to C1 as stated: the rule's glob matches
`/etc/app.conf`, the poll succeeds, reports a `files` array and a changed
checksum, and `poll_and_record` does emit the `controlled_files_change`
event with the change — yet the observed `2.0.0` falls outside the
baseline, so the device's new state is `mismatch`, not `files_changed`. -/
theorem c1_files_changed_counterexample :
    reconChanges c1Db c1Device c1Res 5 100 =
      [{ path := "/etc/app.conf", old := some "aaa", new := some "bbb" }] ∧
    (cfcEvents (pollAndRecord c1Db c1Device c1Res 5 100).db.events).length = 1 ∧
    reconNewState c1Db c1Device c1Res 5 100 = "mismatch" ∧
    (pollAndRecord c1Db c1Device c1Res 5 100).db.devices = [c1DeviceAfter] :=
  ⟨rfl, rfl, rfl, rfl⟩

/-- The previous successful snapshot view used by the C1 witness. -/
def c1Prev : Option SnapshotView := getLatestSuccessSnapshot c1Db c1Device.id

/-- The `controlled_files_change` event the amended C1 predicts at the
witness inputs. -/
def c1CfcEvent : Event :=
  { id := c1Db.nextEventId
    deviceId := c1Device.id
    createdAt := 100
    eventType := "controlled_files_change"
    oldState := none
    newState := none
    message := some (cfcMessage (cfPathsChanged (cfChanges c1Res c1Prev c1Rule)))
    payload := some (.controlledFilesChange c1Device.id c1Device.deviceKey
      c1Device.vendor c1Device.model c1Device.clusterId (some c1Rule.id)
      c1Rule.paths (normalizeMode c1Rule.mode) (normalizeMaxBytes c1Rule.maxBytes)
      (cfChanges c1Res c1Prev c1Rule) (c1Prev.map (fun sv => sv.snap.id)) 2) }

/-- Witness for the amended C1 at concrete inputs, with every hypothesis
discharged by evaluation. -/
theorem c1_files_changed_witness :
    (checkControlledFiles c1Db c1Device c1Res c1Prev 2 100).2 =
      cfChanges c1Res c1Prev c1Rule ∧
    (checkControlledFiles c1Db c1Device c1Res c1Prev 2 100).1.events =
      c1Db.events ++ [c1CfcEvent] ∧
    (∀ (d2 : Db) (b : Baseline),
      getBaseline d2 c1Device.clusterId c1Device.vendor c1Device.model = some b →
      baselineAllows b (orEmpty c1Res.mainVersion) = true →
      (computeStateAndMessage d2 c1Device c1Res (cfChanges c1Res c1Prev c1Rule)).1 =
        "files_changed") :=
  c1_files_changed_amended c1Db c1Device c1Res c1Prev 2 100 c1Rule rfl rfl rfl rfl
    rfl rfl
